import Mathlib

set_option maxRecDepth 4000

/-!
Shallow embedding of the SOFS14 metadata engine (repository veronicapr/sofs14)
and verification of the frozen claims about it.

The source files under src/src are translated function by function.  The
repository headers (sofs_const.h, sofs_inode.h, sofs_superblock.h,
sofs_datacluster.h, sofs_direntry.h), the buffer-cache layer
(sofs_buffercache), the basic operations (sofs_basicoper) and the quick
consistency checks (sofs_basicconsist) are not under src; they are modelled
from the spec where needed and each such definition carries a doc comment
saying so.

Machine integers are modelled as Nat; 32-bit (and 16-bit) overflow is made
explicit with u32 / u32sub / u16sub at the places where the C unsigned
arithmetic can wrap.  Fallible code returns Except Int, the Int being the
(negative) error code the C function returns.  Out-of-bounds accesses that
are undefined behaviour in C are modelled as Except.error.
-/

/-- Modelled from the spec (section 6): the sentinels NULL_INODE and NULL_CLUSTER are the
all-ones 32-bit words; the constants header of the repository is not under src. -/
def NULL_INODE : Nat := 4294967295

/-- Modelled from the spec (section 6): all-ones 32-bit word. -/
def NULL_CLUSTER : Nat := 4294967295

/-- Modelled from the spec (section 6): the block size is a fixed power of two of the
implementer's choice; it is chosen small here so that the concrete instances of the
model stay cheaply computable.  The counts the spec's scenarios pin (IPB = 8 and
BLOCKS_PER_CLUSTER = 4) are kept at their pinned values. -/
def BLOCK_SIZE : Nat := 16

/-- Modelled from the spec (scenario S1): blocks per cluster. -/
def BLOCKS_PER_CLUSTER : Nat := 4

/-- Modelled from the spec: cluster size in bytes. -/
def CLUSTER_SIZE : Nat := BLOCKS_PER_CLUSTER * BLOCK_SIZE

/-- Modelled from the spec (scenario S1 forces IPB = 8: 128 inodes in 16 blocks). -/
def IPB : Nat := 8

/-- Modelled from the spec: an inode of 64 bytes (IPB = 8) leaves room for 7 direct
references. -/
def N_DIRECT : Nat := 7

/-- Modelled from the spec: bytes of payload in a data cluster (cluster size minus the
12-byte prev/next/stat header). -/
def BSLPC : Nat := 52

/-- Modelled from the spec: references per cluster, BSLPC / 4. -/
def RPC : Nat := 13

/-- Modelled from the spec: maximum length of a directory-entry base name
(implementer-chosen; a directory entry is then MAX_NAME + 1 + 4 = 16 bytes). -/
def MAX_NAME : Nat := 11

/-- Modelled from the spec: directory entries per cluster, BSLPC divided by the
16-byte entry size, rounded down. -/
def DPC : Nat := 3

/-- Modelled from the spec (section 3): capacity of each of the two free-cluster caches
held in the superblock; implementer-chosen in the missing constants header. -/
def DZONE_CACHE_SIZE : Nat := 5

/-- Largest logical file-cluster index plus one: direct, single-indirect and
double-indirect regions together. -/
def MAX_FILE_CLUSTERS : Nat := N_DIRECT + RPC + RPC * RPC

/-- Modelled from the spec: magic number of a committed volume (value implementer-chosen). -/
def MAGIC_NUMBER : Nat := 20141

/-- Modelled from the spec: version number. -/
def VERSION_NUMBER : Nat := 3

/-- Modelled from the spec: properly-unmounted flag value of mStat. -/
def PRU : Nat := 0

/-- Modelled from the spec: volume-name capacity. -/
def PARTITION_NAME_SIZE : Nat := 24

/- Mode bits.  Modelled from the spec (section 3): the low nine bits are rwx for
user / group / other, the bits above classify the type and carry the free flag.
The concrete values are implementer-chosen in the missing sofs_inode.h. -/

def INODE_EX_OTH : Nat := 1
def INODE_WR_OTH : Nat := 2
def INODE_RD_OTH : Nat := 4
def INODE_EX_GRP : Nat := 8
def INODE_WR_GRP : Nat := 16
def INODE_RD_GRP : Nat := 32
def INODE_EX_USR : Nat := 64
def INODE_WR_USR : Nat := 128
def INODE_RD_USR : Nat := 256

/-- Modelled from the spec: free flag of the mode field. -/
def INODE_FREE : Nat := 512

/-- Modelled from the spec: directory type bit. -/
def INODE_DIR : Nat := 1024

/-- Modelled from the spec: regular-file type bit. -/
def INODE_FILE : Nat := 2048

/-- Modelled from the spec: symlink type bit. -/
def INODE_SYMLINK : Nat := 4096

/-- Modelled from the spec: mask selecting the type bits of the mode field. -/
def INODE_TYPE_MASK : Nat := INODE_DIR + INODE_FILE + INODE_SYMLINK

/- Error codes.  The POSIX ones use the usual Linux values; the SOFS-specific ones
live in the missing sofs_const.h, so their values are modelled (only distinctness
matters). -/

def EPERM : Int := 1
def ENOENT : Int := 2
def EIOerr : Int := 5
def EBADF : Int := 9
def EACCES : Int := 13
def EEXIST : Int := 17
def ENOTDIR : Int := 20
def EINVAL : Int := 22
def EFBIG : Int := 27
def ENOSPC : Int := 28
def EMLINK : Int := 31
def ENAMETOOLONG : Int := 36
def ENOTEMPTY : Int := 39
def ELIBBAD : Int := 80
def EIUININVAL : Int := 501
def EFDININVAL : Int := 502
def EFININVAL : Int := 503
def ELDCININVAL : Int := 504
def EDCINVAL : Int := 505
def EDCARDYIL : Int := 506
def EDCNOTIL : Int := 507
def EDCNALINVAL : Int := 508
def EWGINODENB : Int := 509
def EDIRINVAL : Int := 510
def EDEINVAL : Int := 511
def EDCMINVAL : Int := 512

/- Operation selectors, as defined at the top of the ifuncs_3 / ifuncs_4 sources. -/

def GET : Nat := 0
def ALLOC : Nat := 1
def FREE : Nat := 2
def FREE_CLEAN : Nat := 3
def CLEAN : Nat := 4
def IUIN : Nat := 0
def FDIN : Nat := 1
def ADD : Nat := 0
def ATTACH : Nat := 1
def REM : Nat := 0
def DETACH : Nat := 1

/-- Permission bit for a read request (soAccessGranted). -/
def R : Nat := 4

/-- Permission bit for a write request (soAccessGranted). -/
def W : Nat := 2

/-- Permission bit for an execute request (soAccessGranted). -/
def X : Nat := 1

/-- Modelled from the spec: status value returned by soQCheckStatDC for a free cluster. -/
def FREE_CLT : Nat := 0

/-- Modelled from the spec: status value returned by soQCheckStatDC for an allocated
cluster. -/
def ALLOC_CLT : Nat := 1

/-- Reduction modulo 2^32, the unsigned 32-bit arithmetic of the C source. -/
def u32 (a : Nat) : Nat := a % 4294967296

/-- Unsigned 32-bit subtraction a - b for operands below 2^32. -/
def u32sub (a b : Nat) : Nat := (a + 4294967296 - b) % 4294967296

/-- Unsigned 16-bit subtraction a - b for operands below 2^16 (the refCount field is a
16-bit quantity). -/
def u16sub (a b : Nat) : Nat := (a + 65536 - b) % 65536

/-- A directory entry: name is the fixed array of MAX_NAME + 1 bytes, nInode the
referenced inode number (sofs_direntry.h, modelled from the spec, section 3). -/
structure SODirEntry where
  name : List Nat
  nInode : Nat
deriving DecidableEq

/-- Content of the info union of a data cluster: raw file bytes, an array of
logical-cluster references, or an array of directory entries (sofs_datacluster.h,
modelled from the spec, section 3).  Reading the union through the wrong member is
undefined behaviour in C; the view functions below give it a defined result only
where a byte-level argument justifies one. -/
inductive ClustInfo where
  | bytes (data : List Nat)
  | refs (r : List Nat)
  | dirents (de : List SODirEntry)
deriving DecidableEq

/-- A data cluster: header prev / next / stat plus the info union (sofs_datacluster.h,
modelled from the spec, section 3). -/
structure SODataClust where
  prev : Nat
  next : Nat
  stat : Nat
  info : ClustInfo
deriving DecidableEq

/-- An inode (sofs_inode.h, modelled from the spec, section 3).  vD1 holds aTime for an
inode in use and next for a free one, vD2 holds mTime or prev; the union members have
identical bytes, so one field each suffices. -/
structure SOInode where
  mode : Nat
  refCount : Nat
  owner : Nat
  group : Nat
  size : Nat
  cluCount : Nat
  vD1 : Nat
  vD2 : Nat
  d : List Nat
  i1 : Nat
  i2 : Nat
deriving DecidableEq

instance : Inhabited SOInode :=
  ⟨⟨0, 0, 0, 0, 0, 0, 0, 0, List.replicate N_DIRECT 0, 0, 0⟩⟩

/-- One of the two bounded caches of free-cluster references held in the superblock
(sofs_superblock.h, modelled from the spec, section 3). -/
structure SOCache where
  cacheIdx : Nat
  cache : List Nat
deriving DecidableEq

/-- The superblock (sofs_superblock.h, modelled from the spec, section 3). -/
structure SOSuperBlock where
  magic : Nat
  version : Nat
  name : List Nat
  nTotal : Nat
  mStat : Nat
  iTableStart : Nat
  iTableSize : Nat
  iTotal : Nat
  iFree : Nat
  iHead : Nat
  iTail : Nat
  dZoneStart : Nat
  dZoneTotal : Nat
  dZoneFree : Nat
  dHead : Nat
  dTail : Nat
  dZoneRetriev : SOCache
  dZoneInsert : SOCache
deriving DecidableEq

/-- Modelled from the spec (sections 1 and 5): the whole file-system state.  The
buffer-cache layer is out of scope of the repository core and is modelled as direct
access to the single superblock, the inode table and the data zone; now is the clock
read by time(NULL); uid / gid / euid / egid identify the calling process (getuid,
getgid, geteuid, getegid). -/
structure FS where
  sb : SOSuperBlock
  itable : List SOInode
  dzone : List SODataClust
  now : Nat
  uid : Nat
  gid : Nat
  euid : Nat
  egid : Nat
deriving DecidableEq

/-- Result type of an embedded operation: error code, or value plus successor state. -/
abbrev SOR (α : Type) := Except Int (α × FS)

/-- Modelled from the spec: the buffer cache turns a physical block number back into a
logical cluster number; a physical number that does not address a cluster of the data
zone is a storage-level error. -/
def physToLog (s : FS) (p : Nat) : Except Int Nat :=
  if s.sb.dZoneStart ≤ p ∧ (p - s.sb.dZoneStart) % BLOCKS_PER_CLUSTER = 0 ∧
      (p - s.sb.dZoneStart) / BLOCKS_PER_CLUSTER < s.sb.dZoneTotal then
    .ok ((p - s.sb.dZoneStart) / BLOCKS_PER_CLUSTER)
  else
    .error (-EIOerr)

/-- Modelled from the spec: soReadCacheCluster of sofs_buffercache, reading the whole
cluster whose first physical block number is p. -/
def soReadCacheCluster (p : Nat) (s : FS) : Except Int SODataClust :=
  match physToLog s p with
  | .error e => .error e
  | .ok n =>
    match s.dzone.get? n with
    | some c => .ok c
    | none => .error (-EIOerr)

/-- Modelled from the spec: soWriteCacheCluster of sofs_buffercache. -/
def soWriteCacheCluster (p : Nat) (c : SODataClust) (s : FS) : SOR Unit :=
  match physToLog s p with
  | .error e => .error e
  | .ok n =>
    if n < s.dzone.length then .ok ((), { s with dzone := s.dzone.set n c })
    else .error (-EIOerr)

/-- Modelled from the spec: soConvertRefInT of sofs_basicoper, splitting an inode number
into the block number inside the inode table and the offset inside the block. -/
def soConvertRefInT (nInode : Nat) : Nat × Nat := (nInode / IPB, nInode % IPB)

/-- Modelled from the spec: reading one inode of the inode table through the buffer
cache (soLoadBlockInT followed by soGetBlockInT plus the offset). -/
def getInode (s : FS) (nInode : Nat) : Except Int SOInode :=
  match s.itable.get? nInode with
  | some i => .ok i
  | none => .error (-EIOerr)

/-- Modelled from the spec: writing one inode of the inode table back through the
buffer cache (mutation through the soGetBlockInT pointer plus soStoreBlockInT). -/
def setInode (s : FS) (nInode : Nat) (i : SOInode) : FS :=
  { s with itable := s.itable.set nInode i }

/-- Bytes of a C string stored in a fixed byte array: everything before the first NUL. -/
def cstr (l : List Nat) : List Nat := l.takeWhile (fun b => b ≠ 0)

/-- C strncpy of a NUL-free source string into a fresh n-byte field: the first n bytes
of the source followed by NUL padding. -/
def strncpyN (src : List Nat) (n : Nat) : List Nat :=
  src.take n ++ List.replicate (n - src.length) 0

/-- A name field of MAX_NAME + 1 NUL bytes. -/
def nameBlank : List Nat := List.replicate (MAX_NAME + 1) 0

/-- View of a cluster's info union as an array of directory entries.  Defined for a
dirents member and for an all-zero byte member (whose reinterpretation is DPC entries
with all-NUL names and nInode 0); any other reinterpretation is left undefined. -/
def deView (ci : ClustInfo) : Except Int (List SODirEntry) :=
  match ci with
  | .dirents de => .ok de
  | .bytes bs =>
    if bs = List.replicate BSLPC 0 then
      .ok (List.replicate DPC ⟨nameBlank, 0⟩)
    else .error (-ELIBBAD)
  | .refs _ => .error (-ELIBBAD)

/-- View of a cluster's info union as an array of logical-cluster references; only a
refs member gives a defined result. -/
def refView (ci : ClustInfo) : Except Int (List Nat) :=
  match ci with
  | .refs r => .ok r
  | _ => .error (-ELIBBAD)

/-- Modelled from the spec (section 4.8): soQCheckSuperBlock, a quick structural check
of the superblock. -/
def soQCheckSuperBlock (sb : SOSuperBlock) : Except Int Unit :=
  if sb.magic = MAGIC_NUMBER ∧ sb.dZoneRetriev.cacheIdx ≤ DZONE_CACHE_SIZE ∧
      sb.dZoneInsert.cacheIdx ≤ DZONE_CACHE_SIZE then .ok ()
  else .error (-ELIBBAD)

/-- Modelled from the spec (section 4.8): soQCheckDZ, a quick structural check of the
data-zone bookkeeping. -/
def soQCheckDZ (sb : SOSuperBlock) : Except Int Unit :=
  if sb.dZoneFree ≤ sb.dZoneTotal ∧ sb.dZoneRetriev.cacheIdx ≤ DZONE_CACHE_SIZE ∧
      sb.dZoneInsert.cacheIdx ≤ DZONE_CACHE_SIZE then .ok ()
  else .error (-ELIBBAD)

/-- Modelled from the spec (section 4.8): soQCheckInT, a quick structural check of the
free-inode list bookkeeping. -/
def soQCheckInT (sb : SOSuperBlock) : Except Int Unit :=
  if sb.iFree ≤ sb.iTotal ∧
      (sb.iFree = 0 → sb.iHead = NULL_INODE ∧ sb.iTail = NULL_INODE) ∧
      (0 < sb.iFree → sb.iHead < sb.iTotal ∧ sb.iTail < sb.iTotal) then .ok ()
  else .error (-ELIBBAD)

/-- Modelled from the spec (section 4.8): soQCheckInodeIU, consistency of an inode
expected to be in use: free flag clear and a legal type. -/
def soQCheckInodeIU (ino : SOInode) : Except Int Unit :=
  if ino.mode &&& INODE_FREE = 0 ∧
      (ino.mode &&& INODE_TYPE_MASK = INODE_DIR ∨ ino.mode &&& INODE_TYPE_MASK = INODE_FILE ∨
       ino.mode &&& INODE_TYPE_MASK = INODE_SYMLINK) then .ok ()
  else .error (-EIUININVAL)

/-- Modelled from the spec (section 4.8): soQCheckFDInode, consistency of an inode
expected to be free in the dirty state: free flag set over a legal type. -/
def soQCheckFDInode (ino : SOInode) : Except Int Unit :=
  if ino.mode &&& INODE_FREE = INODE_FREE ∧
      (ino.mode &&& INODE_TYPE_MASK = INODE_DIR ∨ ino.mode &&& INODE_TYPE_MASK = INODE_FILE ∨
       ino.mode &&& INODE_TYPE_MASK = INODE_SYMLINK) then .ok ()
  else .error (-EFDININVAL)

/-- Walk of the on-disk free-cluster chain following next headers, collecting at most
fuel nodes, stopping at NULL_CLUSTER or outside the data zone. -/
def chainWalk (s : FS) : Nat → Nat → List Nat
  | 0, _ => []
  | fuel + 1, c =>
    if c = NULL_CLUSTER then []
    else
      match s.dzone.get? c with
      | none => [c]
      | some dc => c :: chainWalk s fuel dc.next

/-- Membership of a cluster in the valid window of the retrieval cache (slots cacheIdx
to DZONE_CACHE_SIZE - 1). -/
def inRetrievCache (sb : SOSuperBlock) (nClust : Nat) : Bool :=
  decide (nClust ∈ sb.dZoneRetriev.cache.drop sb.dZoneRetriev.cacheIdx)

/-- Membership of a cluster in the filled part of the insertion cache (slots 0 to
cacheIdx - 1). -/
def inInsertCache (sb : SOSuperBlock) (nClust : Nat) : Bool :=
  decide (nClust ∈ sb.dZoneInsert.cache.take sb.dZoneInsert.cacheIdx)

/-- Modelled from the spec (section 4.8): soQCheckStatDC determines the allocation
state of a data cluster against the free lists: a cluster is free when it sits in one
of the two caches or is reachable on the on-disk free chain, allocated otherwise. -/
def soQCheckStatDC (s : FS) (nClust : Nat) : Except Int Nat :=
  if nClust ≥ s.sb.dZoneTotal then .error (-EINVAL)
  else if inRetrievCache s.sb nClust ∨ inInsertCache s.sb nClust ∨
      nClust ∈ chainWalk s s.sb.dZoneTotal s.sb.dHead then .ok FREE_CLT
  else .ok ALLOC_CLT

/-- Read of a Nat array element; an index outside the array is the C undefined
behaviour and is modelled as a storage error. -/
def lget (l : List Nat) (i : Nat) : Except Int Nat :=
  match l.get? i with
  | some v => .ok v
  | none => .error (-ELIBBAD)

/-- Read of a directory-entry array element, as lget. -/
def dget (l : List SODirEntry) (i : Nat) : Except Int SODirEntry :=
  match l.get? i with
  | some v => .ok v
  | none => .error (-ELIBBAD)

/-- The clearing loop at the end of soDeplete: the first k slots become NULL_CLUSTER. -/
def setPrefixNull : List Nat → Nat → List Nat
  | l, 0 => l
  | [], _ + 1 => []
  | _ :: t, k + 1 => NULL_CLUSTER :: setPrefixNull t k

/-- Body of the for loop of soDeplete (sofs_ifuncs_1/soFreeDataCluster.c, lines
161-221).  The first argument is the number of iterations left, i the loop counter,
count the snapshot of dZoneInsert.cacheIdx (the loop does not modify it, nor the
cache contents, nor dTail).  Each iteration writes the prev header of the cluster at
cache slot i (dTail for i = 0, cache slot i-1 otherwise) and its next header (cache
slot i+1, or NULL_CLUSTER when i = count - 1). -/
def soDepleteLoop (count : Nat) : Nat → Nat → FS → SOR Unit
  | 0, _, s => .ok ((), s)
  | remaining + 1, i, s =>
    match lget s.sb.dZoneInsert.cache i with
    | .error e => .error e
    | .ok ci =>
      let nfclt := u32 (s.sb.dZoneStart + ci * BLOCKS_PER_CLUSTER)
      match soReadCacheCluster nfclt s with
      | .error e => .error e
      | .ok dc =>
        let prevVal : Except Int Nat :=
          if i = 0 then .ok s.sb.dTail else lget s.sb.dZoneInsert.cache (i - 1)
        match prevVal with
        | .error e => .error e
        | .ok pv =>
          match soWriteCacheCluster nfclt { dc with prev := pv } s with
          | .error e => .error e
          | .ok (_, s) =>
            if i ≠ count - 1 then
              match lget s.sb.dZoneInsert.cache (i + 1) with
              | .error e => .error e
              | .ok nv =>
                match soReadCacheCluster nfclt s with
                | .error e => .error e
                | .ok dc2 =>
                  match soWriteCacheCluster nfclt { dc2 with next := nv } s with
                  | .error e => .error e
                  | .ok (_, s) => soDepleteLoop count remaining (i + 1) s
            else
              match lget s.sb.dZoneInsert.cache (count - 1) with
              | .error e => .error e
              | .ok cl =>
                let nfclt2 := u32 (s.sb.dZoneStart + cl * BLOCKS_PER_CLUSTER)
                match soReadCacheCluster nfclt2 s with
                | .error e => .error e
                | .ok dc2 =>
                  match soWriteCacheCluster nfclt2 { dc2 with next := NULL_CLUSTER } s with
                  | .error e => .error e
                  | .ok (_, s) => soDepleteLoop count remaining (i + 1) s

/-- Deplete the insertion cache of free data cluster references
(sofs_ifuncs_1/soFreeDataCluster.c, soDeplete, lines 130-245).  Note the final
assignment dTail = dZoneInsert.cache of cacheIdx - 1: the C index is computed in
unsigned arithmetic, so with an empty insertion cache it reads slot 2^32 - 1, out of
bounds. -/
def soDeplete (s : FS) : SOR Unit :=
  match soQCheckSuperBlock s.sb with
  | .error e => .error e
  | .ok _ =>
    let linkTail : SOR Unit :=
      if s.sb.dTail ≠ NULL_CLUSTER then
        match lget s.sb.dZoneInsert.cache 0 with
        | .error e => .error e
        | .ok c0 =>
          let nfclt := u32 (s.sb.dZoneStart + s.sb.dTail * BLOCKS_PER_CLUSTER)
          match soReadCacheCluster nfclt s with
          | .error e => .error e
          | .ok dc => soWriteCacheCluster nfclt { dc with next := c0 } s
      else .ok ((), s)
    match linkTail with
    | .error e => .error e
    | .ok (_, s) =>
      match soDepleteLoop s.sb.dZoneInsert.cacheIdx s.sb.dZoneInsert.cacheIdx 0 s with
      | .error e => .error e
      | .ok (_, s) =>
        match lget s.sb.dZoneInsert.cache (u32sub s.sb.dZoneInsert.cacheIdx 1) with
        | .error e => .error e
        | .ok newTail =>
          match lget s.sb.dZoneInsert.cache 0 with
          | .error e => .error e
          | .ok c0 =>
            let sb := s.sb
            let sb := { sb with
              dTail := newTail
              dHead := if sb.dHead = NULL_CLUSTER then c0 else sb.dHead
              dZoneInsert := {
                cacheIdx := 0
                cache := setPrefixNull sb.dZoneInsert.cache sb.dZoneInsert.cacheIdx } }
            .ok ((), { s with sb := sb })

/-- First walking loop of soReplenish (sofs_ifuncs_1/soAllocDataCluster.c, lines
184-201): while the counter n has not reached DZONE_CACHE_SIZE and the current chain
node is not NULL_CLUSTER, read the node, store its number into retrieval-cache slot
n, reset its prev and next headers to NULL_CLUSTER and advance to the read next.
Returns the final counter and the final chain node. -/
def soReplenishLoop : Nat → Nat → Nat → FS → Except Int (Nat × Nat × FS)
  | 0, n, c, s => .ok (n, c, s)
  | remaining + 1, n, c, s =>
    if c = NULL_CLUSTER then .ok (n, c, s)
    else
      let nfclt := u32 (s.sb.dZoneStart + BLOCKS_PER_CLUSTER * c)
      match soReadCacheCluster nfclt s with
      | .error e => .error e
      | .ok dc =>
        let s := { s with sb := { s.sb with
          dZoneRetriev := { s.sb.dZoneRetriev with
            cache := s.sb.dZoneRetriev.cache.set n c } } }
        match soWriteCacheCluster nfclt { dc with prev := NULL_CLUSTER, next := NULL_CLUSTER } s with
        | .error e => .error e
        | .ok (_, s) => soReplenishLoop remaining (n + 1) dc.next s

/-- Second walking loop of soReplenish (sofs_ifuncs_1/soAllocDataCluster.c, lines
211-227), run after the in-chain nodes ran out and soDeplete refilled the chain; it
is the same walk but without the NULL_CLUSTER test. -/
def soReplenishLoop2 : Nat → Nat → Nat → FS → Except Int (Nat × Nat × FS)
  | 0, n, c, s => .ok (n, c, s)
  | remaining + 1, n, c, s =>
    let nfclt := u32 (s.sb.dZoneStart + c * BLOCKS_PER_CLUSTER)
    match soReadCacheCluster nfclt s with
    | .error e => .error e
    | .ok dc =>
      let s := { s with sb := { s.sb with
        dZoneRetriev := { s.sb.dZoneRetriev with
          cache := s.sb.dZoneRetriev.cache.set n c } } }
      match soWriteCacheCluster nfclt { dc with prev := NULL_CLUSTER, next := NULL_CLUSTER } s with
      | .error e => .error e
      | .ok (_, s) => soReplenishLoop2 remaining (n + 1) dc.next s

/-- Replenish the retrieval cache of free data cluster references
(sofs_ifuncs_1/soAllocDataCluster.c, soReplenish, lines 167-251).  nctt is the
minimum of dZoneFree and DZONE_CACHE_SIZE; the walk starts at dHead; if the chain is
exhausted early, dHead and dTail are reset to NULL_CLUSTER, soDeplete flushes the
insertion cache into the chain and the walk resumes at its new head. -/
def soReplenish (s : FS) : SOR Unit :=
  match soQCheckSuperBlock s.sb with
  | .error e => .error e
  | .ok _ =>
    let nctt := if s.sb.dZoneFree < DZONE_CACHE_SIZE then s.sb.dZoneFree else DZONE_CACHE_SIZE
    match soReplenishLoop nctt (DZONE_CACHE_SIZE - nctt) s.sb.dHead s with
    | .error e => .error e
    | .ok (n1, c1, s1) =>
      let afterWalk : Except Int (Nat × FS) :=
        if n1 ≠ DZONE_CACHE_SIZE then
          let s2 := { s1 with sb := { s1.sb with dHead := NULL_CLUSTER, dTail := NULL_CLUSTER } }
          match soDeplete s2 with
          | .error e => .error e
          | .ok (_, s3) =>
            match soReplenishLoop2 (DZONE_CACHE_SIZE - n1) n1 s3.sb.dHead s3 with
            | .error e => .error e
            | .ok (_, c2, s4) => .ok (c2, s4)
        else .ok (c1, s1)
      match afterWalk with
      | .error e => .error e
      | .ok (cFinal, s5) =>
        let fixHead : SOR Unit :=
          if cFinal ≠ NULL_CLUSTER then
            let nfclt := u32 (s5.sb.dZoneStart + cFinal * BLOCKS_PER_CLUSTER)
            match soReadCacheCluster nfclt s5 with
            | .error e => .error e
            | .ok dc => soWriteCacheCluster nfclt { dc with prev := NULL_CLUSTER } s5
          else .ok ((), s5)
        match fixHead with
        | .error e => .error e
        | .ok (_, s6) =>
          let sb := { s6.sb with
            dZoneRetriev := { s6.sb.dZoneRetriev with cacheIdx := DZONE_CACHE_SIZE - nctt }
            dHead := cFinal
            dTail := if cFinal = NULL_CLUSTER then NULL_CLUSTER else s6.sb.dTail }
          .ok ((), { s6 with sb := sb })

/-- Free the referenced data cluster (sofs_ifuncs_1/soFreeDataCluster.c, lines
50-116): check that the cluster is allocated, reset its prev and next headers (stat
keeps naming the former owner, the dirty state), deplete the insertion cache first
if it is full, then push the cluster into the insertion cache and increment
dZoneFree. -/
def soFreeDataCluster (nClust : Nat) (s : FS) : SOR Unit :=
  match soQCheckStatDC s nClust with
  | .error e => .error e
  | .ok dcStat =>
    if nClust = 0 ∨ nClust ≥ s.sb.dZoneTotal then .error (-EINVAL)
    else if dcStat = FREE_CLT then .error (-EDCNALINVAL)
    else
      match soQCheckDZ s.sb with
      | .error e => .error e
      | .ok _ =>
        match soQCheckSuperBlock s.sb with
        | .error e => .error e
        | .ok _ =>
          let clustFirstBlock := u32 (s.sb.dZoneStart + nClust * BLOCKS_PER_CLUSTER)
          match soReadCacheCluster clustFirstBlock s with
          | .error e => .error e
          | .ok dc =>
            match soWriteCacheCluster clustFirstBlock
                { dc with prev := NULL_CLUSTER, next := NULL_CLUSTER } s with
            | .error e => .error e
            | .ok (_, s) =>
              let depleted : SOR Unit :=
                if s.sb.dZoneInsert.cacheIdx = DZONE_CACHE_SIZE then soDeplete s
                else .ok ((), s)
              match depleted with
              | .error e => .error e
              | .ok (_, s) =>
                let sb := { s.sb with
                  dZoneInsert := { s.sb.dZoneInsert with
                    cache := s.sb.dZoneInsert.cache.set s.sb.dZoneInsert.cacheIdx nClust
                    cacheIdx := s.sb.dZoneInsert.cacheIdx + 1 }
                  dZoneFree := s.sb.dZoneFree + 1 }
                let s := { s with sb := sb }
                match soQCheckStatDC s nClust with
                | .error e => .error e
                | .ok _ => .ok ((), s)

/-- Read an inode from the inode table (sofs_ifuncs_2/soReadInode.c): validate the
inode number and the expected status, run the matching quick check, update the
access time on disk when the inode is in use, and return the copy taken after that
update. -/
def soReadInode (nInode status : Nat) (s : FS) : Except Int (SOInode × FS) :=
  if nInode ≥ s.sb.iTotal then .error (-EINVAL)
  else if status ≠ IUIN ∧ status ≠ FDIN then .error (-EINVAL)
  else
    match getInode s nInode with
    | .error e => .error e
    | .ok ino =>
      match (if status = IUIN then soQCheckInodeIU ino else soQCheckFDInode ino) with
      | .error e => .error e
      | .ok _ =>
        if status = IUIN then
          let ino2 := { ino with vD1 := s.now }
          .ok (ino2, setInode s nInode ino2)
        else .ok (ino, s)

/-- Write an inode into the inode table (sofs_ifuncs_2/soWriteInode.c): validate, run
the matching quick check on the caller's buffer, copy every field and, when the
inode is in use, stamp both times with the current clock. -/
def soWriteInode (ino : SOInode) (nInode status : Nat) (s : FS) : SOR Unit :=
  if nInode ≥ s.sb.iTotal then .error (-EINVAL)
  else if status ≠ IUIN ∧ status ≠ FDIN then .error (-EINVAL)
  else
    match (if status = IUIN then soQCheckInodeIU ino else soQCheckFDInode ino) with
    | .error e => .error e
    | .ok _ =>
      match getInode s nInode with
      | .error e => .error e
      | .ok _ =>
        let ino2 := if status = IUIN then { ino with vD1 := s.now, vD2 := s.now } else ino
        .ok ((), setInode s nInode ino2)

/-- Check the inode access rights against a requested operation
(sofs_ifuncs_2/soAccessGranted.c, lines 63-160).  The class tests compare getuid and
getgid (the real ids) with the inode's owner and group; only the root test uses
geteuid. -/
def soAccessGranted (nInode opRequested : Nat) (s : FS) : SOR Unit :=
  let owner := s.uid
  let group := s.gid
  if opRequested < 1 ∨ opRequested > 7 then .error (-EINVAL)
  else if nInode ≥ s.sb.iTotal then .error (-EINVAL)
  else
    match soReadInode nInode IUIN s with
    | .error e => .error e
    | .ok (inode, s) =>
      if s.euid = 0 then
        if opRequested &&& X ≠ 0 ∧
            inode.mode &&& (INODE_EX_USR ||| INODE_EX_GRP ||| INODE_EX_OTH) = 0 then
          .error (-EACCES)
        else .ok ((), s)
      else if owner = inode.owner then
        if opRequested &&& R ≠ 0 ∧ inode.mode &&& INODE_RD_USR ≠ INODE_RD_USR then .error (-EACCES)
        else if opRequested &&& W ≠ 0 ∧ inode.mode &&& INODE_WR_USR ≠ INODE_WR_USR then .error (-EACCES)
        else if opRequested &&& X ≠ 0 ∧ inode.mode &&& INODE_EX_USR ≠ INODE_EX_USR then .error (-EACCES)
        else .ok ((), s)
      else if group = inode.group then
        if opRequested &&& R ≠ 0 ∧ inode.mode &&& INODE_RD_GRP ≠ INODE_RD_GRP then .error (-EACCES)
        else if opRequested &&& W ≠ 0 ∧ inode.mode &&& INODE_WR_GRP ≠ INODE_WR_GRP then .error (-EACCES)
        else if opRequested &&& X ≠ 0 ∧ inode.mode &&& INODE_EX_GRP ≠ INODE_EX_GRP then .error (-EACCES)
        else .ok ((), s)
      else
        if opRequested &&& R ≠ 0 ∧ inode.mode &&& INODE_RD_OTH ≠ INODE_RD_OTH then .error (-EACCES)
        else if opRequested &&& W ≠ 0 ∧ inode.mode &&& INODE_WR_OTH ≠ INODE_WR_OTH then .error (-EACCES)
        else if opRequested &&& X ≠ 0 ∧ inode.mode &&& INODE_EX_OTH ≠ INODE_EX_OTH then .error (-EACCES)
        else .ok ((), s)

/-- Free an inode, inserting it at the tail of the double-linked free-inode list
(sofs_ifuncs_1/soFreeInode.c, lines 55-149). -/
def soFreeInode (nInode : Nat) (s : FS) : SOR Unit :=
  if nInode = 0 ∨ nInode ≥ s.sb.iTotal then .error (-EINVAL)
  else
    match soQCheckInT s.sb with
    | .error e => .error e
    | .ok _ =>
      match getInode s nInode with
      | .error e => .error e
      | .ok ino =>
        match soQCheckInodeIU ino with
        | .error e => .error e
        | .ok _ =>
          if ino.mode &&& INODE_TYPE_MASK ≠ INODE_DIR ∧
              ino.mode &&& INODE_TYPE_MASK ≠ INODE_FILE ∧
              ino.mode &&& INODE_TYPE_MASK ≠ INODE_SYMLINK then .error (-EIUININVAL)
          else if ino.refCount ≠ 0 then .error (-EINVAL)
          else
            let ino := { ino with mode := ino.mode ||| INODE_FREE }
            if s.sb.iFree = 0 then
              let s := setInode s nInode { ino with vD2 := NULL_INODE, vD1 := NULL_INODE }
              let sb2 := { s.sb with iHead := nInode, iTail := nInode, iFree := s.sb.iFree + 1 }
              .ok ((), { s with sb := sb2 })
            else
              let s := setInode s nInode { ino with vD2 := s.sb.iTail, vD1 := NULL_INODE }
              match getInode s s.sb.iTail with
              | .error e => .error e
              | .ok tailIno =>
                let s := setInode s s.sb.iTail { tailIno with vD1 := nInode }
                let sb2 := { s.sb with iTail := nInode, iFree := s.sb.iFree + 1 }
                .ok ((), { s with sb := sb2 })

/-- Clean a file data cluster whose logical number is known
(sofs_ifuncs_3/soHandleFileCluster.c, soCleanLogicalCluster, lines 758-783): verify
the cluster's stat names the given inode, then reset stat to NULL_INODE. -/
def soCleanLogicalCluster (nInode nLClust : Nat) (s : FS) : SOR Unit :=
  let nfclt := u32 (s.sb.dZoneStart + nLClust * BLOCKS_PER_CLUSTER)
  match soReadCacheCluster nfclt s with
  | .error e => .error e
  | .ok dc =>
    match soQCheckStatDC s nLClust with
    | .error e => .error e
    | .ok _ =>
      if dc.stat ≠ nInode then .error (-EWGINODENB)
      else soWriteCacheCluster nfclt { dc with stat := NULL_INODE } s

/-- Helper of the spec-modelled soCleanDataCluster: search the double-indirect
sub-tables (the list is the i2 reference table, j the outer index) for a reference
to nClust and return its file-cluster position. -/
def findPosI2 (s : FS) (nClust : Nat) : List Nat → Nat → Except Int (Option Nat)
  | [], _ => .ok none
  | r :: rest, j =>
    if r = NULL_CLUSTER then findPosI2 s nClust rest (j + 1)
    else
      match soReadCacheCluster (u32 (s.sb.dZoneStart + r * BLOCKS_PER_CLUSTER)) s with
      | .error e => .error e
      | .ok dc =>
        match refView dc.info with
        | .error e => .error e
        | .ok t =>
          match t.findIdx? (fun x => decide (x = nClust)) with
          | some i => .ok (some (N_DIRECT + RPC + j * RPC + i))
          | none => findPosI2 s nClust rest (j + 1)

/-- Helper of the spec-modelled soCleanDataCluster: the file-cluster position of the
owner inode that references nClust, scanning the direct references, then the
single-indirect table, then the double-indirect tables. -/
def findClusterPos (s : FS) (ino : SOInode) (nClust : Nat) : Except Int (Option Nat) :=
  match ino.d.findIdx? (fun x => decide (x = nClust)) with
  | some k => .ok (some k)
  | none =>
    let viaI1 : Except Int (Option Nat) :=
      if ino.i1 = NULL_CLUSTER then .ok none
      else
        match soReadCacheCluster (u32 (s.sb.dZoneStart + ino.i1 * BLOCKS_PER_CLUSTER)) s with
        | .error e => .error e
        | .ok dc =>
          match refView dc.info with
          | .error e => .error e
          | .ok t =>
            match t.findIdx? (fun x => decide (x = nClust)) with
            | some j => .ok (some (N_DIRECT + j))
            | none => .ok none
    match viaI1 with
    | .error e => .error e
    | .ok (some p) => .ok (some p)
    | .ok none =>
      if ino.i2 = NULL_CLUSTER then .ok none
      else
        match soReadCacheCluster (u32 (s.sb.dZoneStart + ino.i2 * BLOCKS_PER_CLUSTER)) s with
        | .error e => .error e
        | .ok dc =>
          match refView dc.info with
          | .error e => .error e
          | .ok t2 => findPosI2 s nClust t2 0

mutual

/-- Handle of a file data cluster (sofs_ifuncs_3/soHandleFileCluster.c, lines
97-155).  The fuel argument bounds the mutual recursion depth (the C recursion
soHandleFileCluster, soAttachLogicalCluster, soAllocDataCluster, soCleanDataCluster
is finite); pNull models whether the caller passed a NULL p_outVal; the returned
Option Nat is the value stored through p_outVal, if any.  For the operations FREE,
FREE_CLEAN and CLEAN the function resets p_outVal to NULL before dispatching. -/
def soHandleFileCluster : Nat → Nat → Nat → Nat → Bool → FS → SOR (Option Nat)
  | 0, _, _, _, _, _ => .error (-ELIBBAD)
  | f + 1, nInode, clustInd, op, pNull, s =>
    if clustInd ≥ MAX_FILE_CLUSTERS then .error (-EINVAL)
    else if (op = GET ∨ op = ALLOC) ∧ pNull then .error (-EINVAL)
    else if op ≠ GET ∧ op ≠ ALLOC ∧ op ≠ FREE ∧ op ≠ FREE_CLEAN ∧ op ≠ CLEAN then
      .error (-EINVAL)
    else if nInode ≥ s.sb.iTotal then .error (-EINVAL)
    else
      let pNull := if op = FREE ∨ op = FREE_CLEAN ∨ op = CLEAN then true else pNull
      match soReadInode nInode (if op = CLEAN then FDIN else IUIN) s with
      | .error e => .error e
      | .ok (inode, s) =>
        let dispatched : Except Int ((Option Nat × SOInode) × FS) :=
          if clustInd < N_DIRECT then
            soHandleDirect f nInode inode clustInd op pNull s
          else if clustInd < N_DIRECT + RPC then
            soHandleSIndirect f nInode inode clustInd op pNull s
          else
            soHandleDIndirect f nInode inode clustInd op pNull s
        match dispatched with
        | .error e => .error e
        | .ok ((out, inode), s) =>
          if op = ALLOC ∨ op = FREE ∨ op = FREE_CLEAN then
            match soWriteInode inode nInode IUIN s with
            | .error e => .error e
            | .ok (_, s) => .ok (out, s)
          else if op = CLEAN then
            match soWriteInode inode nInode FDIN s with
            | .error e => .error e
            | .ok (_, s) => .ok (out, s)
          else .ok (out, s)
termination_by structural fuel => fuel

/-- Handle of a data cluster of the direct references list
(sofs_ifuncs_3/soHandleFileCluster.c, soHandleDirect, lines 183-260). -/
def soHandleDirect : Nat → Nat → SOInode → Nat → Nat → Bool → FS →
    Except Int ((Option Nat × SOInode) × FS)
  | 0, _, _, _, _, _, _ => .error (-ELIBBAD)
  | f + 1, nInode, ino, clustInd, op, pNull, s =>
    if op = GET then
      match lget ino.d clustInd with
      | .error e => .error e
      | .ok v => if pNull then .error (-ELIBBAD) else .ok ((some v, ino), s)
    else if op = ALLOC then
      match lget ino.d clustInd with
      | .error e => .error e
      | .ok v =>
        if v ≠ NULL_CLUSTER then .error (-EDCARDYIL)
        else
          match soAllocDataCluster f nInode s with
          | .error e => .error e
          | .ok (c, s) =>
            if pNull then .error (-ELIBBAD)
            else
              match soAttachLogicalCluster f nInode clustInd c s with
              | .error e => .error e
              | .ok (_, s) =>
                let ino2 := { ino with d := ino.d.set clustInd c, cluCount := ino.cluCount + 1 }
                .ok ((some c, ino2), s)
    else if op = FREE then
      match lget ino.d clustInd with
      | .error e => .error e
      | .ok v =>
        if v = NULL_CLUSTER then .error (-EDCNOTIL)
        else
          match soFreeDataCluster v s with
          | .error e => .error e
          | .ok (_, s) => .ok ((none, ino), s)
    else if op = CLEAN then
      match lget ino.d clustInd with
      | .error e => .error e
      | .ok v =>
        if v = NULL_CLUSTER then .error (-EDCNOTIL)
        else
          match soCleanLogicalCluster nInode v s with
          | .error e => .error e
          | .ok (_, s) =>
            let ino2 := { ino with d := ino.d.set clustInd NULL_CLUSTER, cluCount := u32sub ino.cluCount 1 }
            .ok ((none, ino2), s)
    else if op = FREE_CLEAN then
      match lget ino.d clustInd with
      | .error e => .error e
      | .ok v =>
        if v = NULL_CLUSTER then .error (-EDCNOTIL)
        else
          match soFreeDataCluster v s with
          | .error e => .error e
          | .ok (_, s) =>
            match soCleanLogicalCluster nInode v s with
            | .error e => .error e
            | .ok (_, s) =>
              let ino2 := { ino with d := ino.d.set clustInd NULL_CLUSTER, cluCount := u32sub ino.cluCount 1 }
              .ok ((none, ino2), s)
    else .error (-EINVAL)
termination_by structural fuel => fuel

/-- Handle of a data cluster of the single-indirect references list
(sofs_ifuncs_3/soHandleFileCluster.c, soHandleSIndirect, lines 291-424). -/
def soHandleSIndirect : Nat → Nat → SOInode → Nat → Nat → Bool → FS →
    Except Int ((Option Nat × SOInode) × FS)
  | 0, _, _, _, _, _, _ => .error (-ELIBBAD)
  | f + 1, nInode, ino, clustInd, op, pNull, s =>
    if ino.i1 = NULL_CLUSTER then
      if op = GET then
        if pNull then .error (-ELIBBAD) else .ok ((some NULL_CLUSTER, ino), s)
      else if op = ALLOC then
        match soAllocDataCluster f nInode s with
        | .error e => .error e
        | .ok (c1, s) =>
          if pNull then .error (-ELIBBAD)
          else
            let ino := { ino with cluCount := ino.cluCount + 1, i1 := c1 }
            let nfclt := u32 (s.sb.dZoneStart + ino.i1 * BLOCKS_PER_CLUSTER)
            match soReadCacheCluster nfclt s with
            | .error e => .error e
            | .ok dc =>
              match soWriteCacheCluster nfclt
                  { dc with info := .refs (List.replicate RPC NULL_CLUSTER) } s with
              | .error e => .error e
              | .ok (_, s) =>
                match soAllocDataCluster f nInode s with
                | .error e => .error e
                | .ok (c2, s) =>
                  match soAttachLogicalCluster f nInode clustInd c2 s with
                  | .error e => .error e
                  | .ok (_, s) =>
                    match soReadCacheCluster nfclt s with
                    | .error e => .error e
                    | .ok dc2 =>
                      match refView dc2.info with
                      | .error e => .error e
                      | .ok t =>
                        let ino := { ino with cluCount := ino.cluCount + 1 }
                        match soWriteCacheCluster nfclt
                            { dc2 with info := .refs (t.set (clustInd - N_DIRECT) c2) } s with
                        | .error e => .error e
                        | .ok (_, s) => .ok ((some c2, ino), s)
      else if op = FREE ∨ op = FREE_CLEAN ∨ op = CLEAN then .error (-EDCNOTIL)
      else .error (-EINVAL)
    else
      let nfclt := u32 (s.sb.dZoneStart + ino.i1 * BLOCKS_PER_CLUSTER)
      match soReadCacheCluster nfclt s with
      | .error e => .error e
      | .ok dc =>
        match refView dc.info with
        | .error e => .error e
        | .ok t =>
          if op = GET then
            match lget t (clustInd - N_DIRECT) with
            | .error e => .error e
            | .ok v => if pNull then .error (-ELIBBAD) else .ok ((some v, ino), s)
          else if op = ALLOC then
            match lget t (clustInd - N_DIRECT) with
            | .error e => .error e
            | .ok v =>
              if v ≠ NULL_CLUSTER then .error (-EDCARDYIL)
              else
                match soAllocDataCluster f nInode s with
                | .error e => .error e
                | .ok (c, s) =>
                  if pNull then .error (-ELIBBAD)
                  else
                    match soAttachLogicalCluster f nInode clustInd c s with
                    | .error e => .error e
                    | .ok (_, s) =>
                      match soReadCacheCluster nfclt s with
                      | .error e => .error e
                      | .ok dc2 =>
                        match refView dc2.info with
                        | .error e => .error e
                        | .ok t2 =>
                          let ino := { ino with cluCount := ino.cluCount + 1 }
                          match soWriteCacheCluster nfclt
                              { dc2 with info := .refs (t2.set (clustInd - N_DIRECT) c) } s with
                          | .error e => .error e
                          | .ok (_, s) => .ok ((some c, ino), s)
          else if op = FREE ∨ op = FREE_CLEAN ∨ op = CLEAN then
            match lget t (clustInd - N_DIRECT) with
            | .error e => .error e
            | .ok v =>
              if v = NULL_CLUSTER then .error (-EDCNOTIL)
              else
                let freed : SOR Unit :=
                  if op ≠ CLEAN then soFreeDataCluster v s else .ok ((), s)
                match freed with
                | .error e => .error e
                | .ok (_, s) =>
                  if op = FREE then .ok ((none, ino), s)
                  else
                    match soCleanLogicalCluster nInode v s with
                    | .error e => .error e
                    | .ok (_, s) =>
                      let t := t.set (clustInd - N_DIRECT) NULL_CLUSTER
                      let ino := { ino with cluCount := u32sub ino.cluCount 1 }
                      match soWriteCacheCluster nfclt { dc with info := .refs t } s with
                      | .error e => .error e
                      | .ok (_, s) =>
                        if t.any (fun x => decide (x ≠ NULL_CLUSTER)) then
                          .ok ((none, ino), s)
                        else
                          match soFreeDataCluster ino.i1 s with
                          | .error e => .error e
                          | .ok (_, s) =>
                            match soCleanLogicalCluster nInode ino.i1 s with
                            | .error e => .error e
                            | .ok (_, s) =>
                              let ino2 := { ino with i1 := NULL_CLUSTER, cluCount := u32sub ino.cluCount 1 }
                              .ok ((none, ino2), s)
          else .error (-EINVAL)
termination_by structural fuel => fuel

/-- Handle of a data cluster of the double-indirect references list
(sofs_ifuncs_3/soHandleFileCluster.c, soHandleDIndirect, lines 456-664). -/
def soHandleDIndirect : Nat → Nat → SOInode → Nat → Nat → Bool → FS →
    Except Int ((Option Nat × SOInode) × FS)
  | 0, _, _, _, _, _, _ => .error (-ELIBBAD)
  | f + 1, nInode, ino, clustInd, op, pNull, s =>
    let indirref_idx := (clustInd - N_DIRECT - RPC) / RPC
    let dirref_idx := (clustInd - N_DIRECT - RPC) % RPC
    if op = GET then
      if ino.i2 = NULL_CLUSTER then
        if pNull then .error (-ELIBBAD) else .ok ((some NULL_CLUSTER, ino), s)
      else
        match soReadCacheCluster (u32 (s.sb.dZoneStart + ino.i2 * BLOCKS_PER_CLUSTER)) s with
        | .error e => .error e
        | .ok dcS =>
          match refView dcS.info with
          | .error e => .error e
          | .ok tS =>
            match lget tS indirref_idx with
            | .error e => .error e
            | .ok v1 =>
              if v1 = NULL_CLUSTER then
                if pNull then .error (-ELIBBAD) else .ok ((some NULL_CLUSTER, ino), s)
              else
                match soReadCacheCluster (u32 (s.sb.dZoneStart + v1 * BLOCKS_PER_CLUSTER)) s with
                | .error e => .error e
                | .ok dcD =>
                  match refView dcD.info with
                  | .error e => .error e
                  | .ok tD =>
                    match lget tD dirref_idx with
                    | .error e => .error e
                    | .ok v =>
                      if pNull then .error (-ELIBBAD) else .ok ((some v, ino), s)
    else if op = ALLOC then
      let stage1 : Except Int (SOInode × FS) :=
        if ino.i2 = NULL_CLUSTER then
          match soAllocDataCluster f nInode s with
          | .error e => .error e
          | .ok (c, s) =>
            let ino := { ino with i2 := c, cluCount := ino.cluCount + 1 }
            let nfclt := u32 (s.sb.dZoneStart + ino.i2 * BLOCKS_PER_CLUSTER)
            match soReadCacheCluster nfclt s with
            | .error e => .error e
            | .ok dc =>
              match soWriteCacheCluster nfclt
                  { dc with info := .refs (List.replicate RPC NULL_CLUSTER) } s with
              | .error e => .error e
              | .ok (_, s) => .ok (ino, s)
        else .ok (ino, s)
      match stage1 with
      | .error e => .error e
      | .ok (ino, s) =>
        match soReadCacheCluster (u32 (s.sb.dZoneStart + ino.i2 * BLOCKS_PER_CLUSTER)) s with
        | .error e => .error e
        | .ok dcS =>
          match refView dcS.info with
          | .error e => .error e
          | .ok tS =>
            match lget tS indirref_idx with
            | .error e => .error e
            | .ok v1 =>
              let stage2 : Except Int ((Nat × SOInode) × FS) :=
                if v1 = NULL_CLUSTER then
                  match soAllocDataCluster f nInode s with
                  | .error e => .error e
                  | .ok (c, s) =>
                    let ino := { ino with cluCount := ino.cluCount + 1 }
                    let nfclt := u32 (s.sb.dZoneStart + c * BLOCKS_PER_CLUSTER)
                    match soReadCacheCluster nfclt s with
                    | .error e => .error e
                    | .ok dc =>
                      match soWriteCacheCluster nfclt
                          { dc with info := .refs (List.replicate RPC NULL_CLUSTER) } s with
                      | .error e => .error e
                      | .ok (_, s) => .ok ((c, ino), s)
                else .ok ((v1, ino), s)
              match stage2 with
              | .error e => .error e
              | .ok ((dirref, ino), s) =>
                let nfcltD := u32 (s.sb.dZoneStart + dirref * BLOCKS_PER_CLUSTER)
                match soReadCacheCluster nfcltD s with
                | .error e => .error e
                | .ok dcD =>
                  match refView dcD.info with
                  | .error e => .error e
                  | .ok tD =>
                    match lget tD dirref_idx with
                    | .error e => .error e
                    | .ok v =>
                      if v = NULL_CLUSTER then
                        match soAllocDataCluster f nInode s with
                        | .error e => .error e
                        | .ok (c, s) =>
                          match soAttachLogicalCluster f nInode clustInd c s with
                          | .error e => .error e
                          | .ok (_, s) =>
                            match soReadCacheCluster nfcltD s with
                            | .error e => .error e
                            | .ok dcD2 =>
                              match refView dcD2.info with
                              | .error e => .error e
                              | .ok tD2 =>
                                let ino := { ino with cluCount := ino.cluCount + 1 }
                                if pNull then .error (-ELIBBAD)
                                else
                                  match soWriteCacheCluster nfcltD
                                      { dcD2 with info := .refs (tD2.set dirref_idx c) } s with
                                  | .error e => .error e
                                  | .ok (_, s) =>
                                    let nfcltS := u32 (s.sb.dZoneStart + ino.i2 * BLOCKS_PER_CLUSTER)
                                    match soReadCacheCluster nfcltS s with
                                    | .error e => .error e
                                    | .ok dcS2 =>
                                      match refView dcS2.info with
                                      | .error e => .error e
                                      | .ok tS2 =>
                                        match soWriteCacheCluster nfcltS
                                            { dcS2 with info := .refs (tS2.set indirref_idx dirref) } s with
                                        | .error e => .error e
                                        | .ok (_, s) => .ok ((some c, ino), s)
                      else .error (-EDCARDYIL)
    else if op = FREE ∨ op = FREE_CLEAN ∨ op = CLEAN then
      if ino.i2 = NULL_CLUSTER then .error (-EDCNOTIL)
      else
        let nfcltS := u32 (s.sb.dZoneStart + ino.i2 * BLOCKS_PER_CLUSTER)
        match soReadCacheCluster nfcltS s with
        | .error e => .error e
        | .ok dcS =>
          match refView dcS.info with
          | .error e => .error e
          | .ok tS =>
            match lget tS indirref_idx with
            | .error e => .error e
            | .ok v1 =>
              if v1 = NULL_CLUSTER then .error (-EDCNOTIL)
              else
                let nfcltD := u32 (s.sb.dZoneStart + v1 * BLOCKS_PER_CLUSTER)
                match soReadCacheCluster nfcltD s with
                | .error e => .error e
                | .ok dcD =>
                  match refView dcD.info with
                  | .error e => .error e
                  | .ok tD =>
                    match lget tD dirref_idx with
                    | .error e => .error e
                    | .ok v =>
                      if v = NULL_CLUSTER then .error (-EDCNOTIL)
                      else
                        let freed : SOR Unit :=
                          if op = FREE ∨ op = FREE_CLEAN then soFreeDataCluster v s
                          else .ok ((), s)
                        match freed with
                        | .error e => .error e
                        | .ok (_, s) =>
                          if op = FREE then .ok ((none, ino), s)
                          else
                            match soCleanLogicalCluster nInode v s with
                            | .error e => .error e
                            | .ok (_, s) =>
                              let tD := tD.set dirref_idx NULL_CLUSTER
                              let ino := { ino with cluCount := u32sub ino.cluCount 1 }
                              match soWriteCacheCluster nfcltD { dcD with info := .refs tD } s with
                              | .error e => .error e
                              | .ok (_, s) =>
                                if tD.any (fun x => decide (x ≠ NULL_CLUSTER)) then
                                  .ok ((none, ino), s)
                                else
                                  match soFreeDataCluster v1 s with
                                  | .error e => .error e
                                  | .ok (_, s) =>
                                    match soCleanLogicalCluster nInode v1 s with
                                    | .error e => .error e
                                    | .ok (_, s) =>
                                      let tS := tS.set indirref_idx NULL_CLUSTER
                                      let ino := { ino with cluCount := u32sub ino.cluCount 1 }
                                      match soWriteCacheCluster nfcltS { dcS with info := .refs tS } s with
                                      | .error e => .error e
                                      | .ok (_, s) =>
                                        if tS.any (fun x => decide (x ≠ NULL_CLUSTER)) then
                                          .ok ((none, ino), s)
                                        else
                                          match soFreeDataCluster ino.i2 s with
                                          | .error e => .error e
                                          | .ok (_, s) =>
                                            match soCleanLogicalCluster nInode ino.i2 s with
                                            | .error e => .error e
                                            | .ok (_, s) =>
                                              let ino2 := { ino with i2 := NULL_CLUSTER, cluCount := u32sub ino.cluCount 1 }
                                              .ok ((none, ino2), s)
    else .error (-EINVAL)
termination_by structural fuel => fuel

/-- Attach a file data cluster at a known position into the file's double-linked
data-cluster chain (sofs_ifuncs_3/soHandleFileCluster.c, soAttachLogicalCluster,
lines 686-738).  Note the neighbour guard clustInd != MAX_FILE_CLUSTERS of the
source: at every legal position it performs the recursive GET of position
clustInd + 1. -/
def soAttachLogicalCluster : Nat → Nat → Nat → Nat → FS → SOR Unit
  | 0, _, _, _, _ => .error (-ELIBBAD)
  | f + 1, nInode, clustInd, nLClust, s =>
    let nfclt := u32 (BLOCKS_PER_CLUSTER * nLClust + s.sb.dZoneStart)
    match soReadCacheCluster nfclt s with
    | .error e => .error e
    | .ok dc =>
      if dc.stat ≠ nInode then .error (-EWGINODENB)
      else
        let stepPrev : Except Int ((Nat × SODataClust) × FS) :=
          if clustInd ≠ 0 then
            match soHandleFileCluster f nInode (clustInd - 1) GET false s with
            | .error e => .error e
            | .ok (none, _) => .error (-ELIBBAD)
            | .ok (some v, s) => .ok ((v, { dc with prev := v }), s)
          else .ok ((NULL_CLUSTER, dc), s)
        match stepPrev with
        | .error e => .error e
        | .ok ((prevC, dc), s) =>
          let stepNext : Except Int ((Nat × SODataClust) × FS) :=
            if clustInd ≠ MAX_FILE_CLUSTERS then
              match soHandleFileCluster f nInode (clustInd + 1) GET false s with
              | .error e => .error e
              | .ok (none, _) => .error (-ELIBBAD)
              | .ok (some v, s) => .ok ((v, { dc with next := v }), s)
            else .ok ((NULL_CLUSTER, dc), s)
          match stepNext with
          | .error e => .error e
          | .ok ((nextC, dc), s) =>
            match soWriteCacheCluster nfclt dc s with
            | .error e => .error e
            | .ok (_, s) =>
              let linkPrev : SOR Unit :=
                if prevC ≠ NULL_CLUSTER then
                  let nfp := u32 (BLOCKS_PER_CLUSTER * prevC + s.sb.dZoneStart)
                  match soReadCacheCluster nfp s with
                  | .error e => .error e
                  | .ok dcp => soWriteCacheCluster nfp { dcp with next := nLClust } s
                else .ok ((), s)
              match linkPrev with
              | .error e => .error e
              | .ok (_, s) =>
                if nextC ≠ NULL_CLUSTER then
                  let nfn := u32 (BLOCKS_PER_CLUSTER * nextC + s.sb.dZoneStart)
                  match soReadCacheCluster nfn s with
                  | .error e => .error e
                  | .ok dcn => soWriteCacheCluster nfn { dcn with prev := nLClust } s
                else .ok ((), s)
termination_by structural fuel => fuel

/-- Allocate a free data cluster and associate it to an inode
(sofs_ifuncs_1/soAllocDataCluster.c, lines 63-153): take the cluster at the head of
the retrieval cache, replenishing the cache first when it is empty, clean the
cluster if it is dirty, and fill in its header. -/
def soAllocDataCluster : Nat → Nat → FS → SOR Nat
  | 0, _, _ => .error (-ELIBBAD)
  | f + 1, nInode, s =>
    match soQCheckDZ s.sb with
    | .error e => .error e
    | .ok _ =>
      if nInode ≥ s.sb.iTotal then .error (-EINVAL)
      else if s.sb.dZoneFree = 0 then .error (-ENOSPC)
      else
        match getInode s nInode with
        | .error e => .error e
        | .ok ino =>
          match soQCheckInodeIU ino with
          | .error e => .error e
          | .ok _ =>
            let replenished : SOR Unit :=
              if s.sb.dZoneRetriev.cacheIdx = DZONE_CACHE_SIZE then soReplenish s
              else .ok ((), s)
            match replenished with
            | .error e => .error e
            | .ok (_, s) =>
              match lget s.sb.dZoneRetriev.cache s.sb.dZoneRetriev.cacheIdx with
              | .error e => .error e
              | .ok nClust =>
                match soQCheckStatDC s nClust with
                | .error e => .error e
                | .ok _ =>
                  match soReadCacheCluster (u32 (s.sb.dZoneStart + nClust * BLOCKS_PER_CLUSTER)) s with
                  | .error e => .error e
                  | .ok dc =>
                    let cleaned : SOR Unit :=
                      if dc.stat ≠ NULL_INODE then soCleanDataCluster f dc.stat nClust s
                      else .ok ((), s)
                    match cleaned with
                    | .error e => .error e
                    | .ok (_, s) =>
                      let dc := { dc with prev := NULL_CLUSTER, next := NULL_CLUSTER, stat := nInode }
                      let sb := { s.sb with
                        dZoneRetriev := { s.sb.dZoneRetriev with
                          cache := s.sb.dZoneRetriev.cache.set s.sb.dZoneRetriev.cacheIdx NULL_CLUSTER
                          cacheIdx := s.sb.dZoneRetriev.cacheIdx + 1 }
                        dZoneFree := u32sub s.sb.dZoneFree 1 }
                      let s := { s with sb := sb }
                      match soWriteCacheCluster (u32 (s.sb.dZoneStart + nClust * BLOCKS_PER_CLUSTER)) dc s with
                      | .error e => .error e
                      | .ok (_, s) => .ok (nClust, s)
termination_by structural fuel => fuel

/-- Modelled from the spec (sections 3 and 4.4): soCleanDataCluster of sofs_ifuncs_3
is declared in the missing sofs_ifuncs_3.h and its implementation file is not under
src.  Per the spec a dirty free cluster still carries its former owner in stat and
is dissociated on re-allocation; the dissociation is the CLEAN operation of
soHandleFileCluster applied at the owner's file-cluster position that references the
cluster. -/
def soCleanDataCluster : Nat → Nat → Nat → FS → SOR Unit
  | 0, _, _, _ => .error (-ELIBBAD)
  | f + 1, nInode, nClust, s =>
    if nInode ≥ s.sb.iTotal then .error (-EINVAL)
    else
      match getInode s nInode with
      | .error e => .error e
      | .ok ino =>
        match findClusterPos s ino nClust with
        | .error e => .error e
        | .ok none => .error (-EDCNALINVAL)
        | .ok (some p) =>
          match soHandleFileCluster f nInode p CLEAN true s with
          | .error e => .error e
          | .ok (_, s) => .ok ((), s)
termination_by structural fuel => fuel

end

/-- Fuel bound for the finite mutual recursion of the file-cluster machinery; the
deepest real call chain (ALLOC through clean-on-reallocation through CLEAN) is well
below this bound. -/
def FUEL : Nat := 24

/-- Read a specific data cluster (sofs_ifuncs_3/soReadFileCluster.c, lines 63-119):
GET the logical cluster at the position; if NULL_CLUSTER the returned buffer is the
whole structure zeroed (memset), else the cluster read from the device. -/
def soReadFileCluster (nInode clustInd : Nat) (s : FS) : Except Int (SODataClust × FS) :=
  if clustInd ≥ MAX_FILE_CLUSTERS ∨ nInode ≥ s.sb.iTotal then .error (-EINVAL)
  else
    match soHandleFileCluster FUEL nInode clustInd GET false s with
    | .error e => .error e
    | .ok (outv, s) =>
      match outv with
      | none => .error (-ELIBBAD)
      | some clustLogicNumber =>
        match getInode s nInode with
        | .error e => .error e
        | .ok p_inode =>
          match soQCheckInodeIU p_inode with
          | .error e => .error e
          | .ok _ =>
            if p_inode.mode &&& INODE_TYPE_MASK ≠ INODE_DIR ∧
                p_inode.mode &&& INODE_TYPE_MASK ≠ INODE_FILE ∧
                p_inode.mode &&& INODE_TYPE_MASK ≠ INODE_SYMLINK then .error (-EIUININVAL)
            else if clustLogicNumber ≠ NULL_CLUSTER then
              match soReadCacheCluster
                  (u32 (s.sb.dZoneStart + clustLogicNumber * BLOCKS_PER_CLUSTER)) s with
              | .error e => .error e
              | .ok dc => .ok (dc, s)
            else
              .ok (⟨0, 0, 0, .bytes (List.replicate BSLPC 0)⟩, s)

/-- Write a specific data cluster (sofs_ifuncs_3/soWriteFileCluster.c, lines 63-129):
GET the logical cluster, ALLOC it if the position was NULL_CLUSTER, then overwrite
the BSLPC payload bytes of the cluster with the caller's buffer (the memcpy covers
the whole info union). -/
def soWriteFileCluster (nInode clustInd : Nat) (buff : SODataClust) (s : FS) : SOR Unit :=
  if clustInd ≥ MAX_FILE_CLUSTERS ∨ nInode ≥ s.sb.iTotal then .error (-EINVAL)
  else
    match getInode s nInode with
    | .error e => .error e
    | .ok p_inode =>
      match soQCheckInodeIU p_inode with
      | .error e => .error e
      | .ok _ =>
        if p_inode.mode &&& INODE_TYPE_MASK ≠ INODE_DIR ∧
            p_inode.mode &&& INODE_TYPE_MASK ≠ INODE_FILE ∧
            p_inode.mode &&& INODE_TYPE_MASK ≠ INODE_SYMLINK then .error (-EIUININVAL)
        else
          match soHandleFileCluster FUEL nInode clustInd GET false s with
          | .error e => .error e
          | .ok (outv, s) =>
            match outv with
            | none => .error (-ELIBBAD)
            | some v0 =>
              let allocated : Except Int (Nat × FS) :=
                if v0 = NULL_CLUSTER then
                  match soHandleFileCluster FUEL nInode clustInd ALLOC false s with
                  | .error e => .error e
                  | .ok (none, _) => .error (-ELIBBAD)
                  | .ok (some v, s) => .ok (v, s)
                else .ok (v0, s)
              match allocated with
              | .error e => .error e
              | .ok (clustLogicNumber, s) =>
                match soReadCacheCluster
                    (u32 (s.sb.dZoneStart + clustLogicNumber * BLOCKS_PER_CLUSTER)) s with
                | .error e => .error e
                | .ok dc =>
                  match soWriteCacheCluster
                      (u32 (s.sb.dZoneStart + clustLogicNumber * BLOCKS_PER_CLUSTER))
                      { dc with info := buff.info } s with
                  | .error e => .error e
                  | .ok (_, s) =>
                    match soReadInode nInode IUIN s with
                    | .error e => .error e
                    | .ok (inode, s) =>
                      soWriteInode inode nInode IUIN s

/-- Inner loop of the double-indirect part of soHandleFileClusters
(sofs_ifuncs_3/soHandleFileClusters.c, lines 140-144): iterate i over the snapshot
t2 of a direct-reference table up to RPC, applying op at each non-NULL reference. -/
def sweepI2Inner (nInode op j : Nat) (t2 : List Nat) : Nat → Nat → FS → SOR Unit
  | 0, _, s => .ok ((), s)
  | remaining + 1, i, s =>
    match lget t2 i with
    | .error e => .error e
    | .ok v =>
      if v ≠ NULL_CLUSTER then
        match soHandleFileCluster FUEL nInode (N_DIRECT + RPC + j * RPC + i) op true s with
        | .error e => .error e
        | .ok (_, s) => sweepI2Inner nInode op j t2 remaining (i + 1) s
      else sweepI2Inner nInode op j t2 remaining (i + 1) s

/-- Outer loop of the double-indirect part of soHandleFileClusters
(sofs_ifuncs_3/soHandleFileClusters.c, lines 131-147): iterate j over the snapshot
t1 of the i2 table up to RPC.  The inner counter i is passed along and reset to 0
only after a non-NULL outer reference was processed, exactly as in the source (the
reset sits inside the if). -/
def sweepI2Outer (nInode op : Nat) (t1 : List Nat) : Nat → Nat → Nat → FS → SOR Unit
  | 0, _, _, s => .ok ((), s)
  | remaining + 1, j, i, s =>
    match lget t1 j with
    | .error e => .error e
    | .ok rj =>
      if rj ≠ NULL_CLUSTER then
        match soReadCacheCluster (u32 (s.sb.dZoneStart + rj * BLOCKS_PER_CLUSTER)) s with
        | .error e => .error e
        | .ok dc =>
          match refView dc.info with
          | .error e => .error e
          | .ok t2 =>
            match sweepI2Inner nInode op j t2 (RPC - i) i s with
            | .error e => .error e
            | .ok (_, s) => sweepI2Outer nInode op t1 remaining (j + 1) 0 s
      else sweepI2Outer nInode op t1 remaining (j + 1) i s

/-- Loop of the single-indirect part of soHandleFileClusters
(sofs_ifuncs_3/soHandleFileClusters.c, lines 162-166). -/
def sweepI1 (nInode op : Nat) (t1 : List Nat) : Nat → Nat → FS → SOR Unit
  | 0, _, s => .ok ((), s)
  | remaining + 1, i, s =>
    match lget t1 i with
    | .error e => .error e
    | .ok v =>
      if v ≠ NULL_CLUSTER then
        match soHandleFileCluster FUEL nInode (N_DIRECT + i) op true s with
        | .error e => .error e
        | .ok (_, s) => sweepI1 nInode op t1 remaining (i + 1) s
      else sweepI1 nInode op t1 remaining (i + 1) s

/-- Loop of the direct part of soHandleFileClusters
(sofs_ifuncs_3/soHandleFileClusters.c, lines 171-175), over the snapshot of the
inode's direct references. -/
def sweepDirect (nInode op : Nat) (dRefs : List Nat) : Nat → Nat → FS → SOR Unit
  | 0, _, s => .ok ((), s)
  | remaining + 1, i, s =>
    match lget dRefs i with
    | .error e => .error e
    | .ok v =>
      if v ≠ NULL_CLUSTER then
        match soHandleFileCluster FUEL nInode i op true s with
        | .error e => .error e
        | .ok (_, s) => sweepDirect nInode op dRefs remaining (i + 1) s
      else sweepDirect nInode op dRefs remaining (i + 1) s

/-- Handle all data clusters from the list of references starting at a given point
(sofs_ifuncs_3/soHandleFileClusters.c, lines 79-179): the double-indirect sub-tree
first, then the single-indirect one, then the direct references, using a snapshot of
the inode and of each reference table taken at load time. -/
def soHandleFileClusters (nInode clustIndIn op : Nat) (s : FS) : SOR Unit :=
  if nInode ≥ s.sb.iTotal then .error (-EINVAL)
  else if clustIndIn ≥ MAX_FILE_CLUSTERS then .error (-EINVAL)
  else if op ≠ FREE ∧ op ≠ FREE_CLEAN ∧ op ≠ CLEAN then .error (-EINVAL)
  else
    match soReadInode nInode (if op = CLEAN then FDIN else IUIN) s with
    | .error e => .error e
    | .ok (inode, s) =>
      let partI2 : SOR Unit :=
        if inode.i2 ≠ NULL_CLUSTER then
          match soReadCacheCluster (u32 (s.sb.dZoneStart + inode.i2 * BLOCKS_PER_CLUSTER)) s with
          | .error e => .error e
          | .ok dc =>
            match refView dc.info with
            | .error e => .error e
            | .ok t1 =>
              let i0 := if clustIndIn < N_DIRECT + RPC then 0
                else (clustIndIn - N_DIRECT - RPC) % RPC
              let j0 := if clustIndIn < N_DIRECT + RPC then 0
                else (clustIndIn - N_DIRECT - RPC) / RPC
              sweepI2Outer nInode op t1 (RPC - j0) j0 i0 s
        else .ok ((), s)
      match partI2 with
      | .error e => .error e
      | .ok (_, s) =>
        let partI1 : SOR Unit :=
          if clustIndIn < N_DIRECT + RPC ∧ inode.i1 ≠ NULL_CLUSTER then
            match soReadCacheCluster (u32 (s.sb.dZoneStart + inode.i1 * BLOCKS_PER_CLUSTER)) s with
            | .error e => .error e
            | .ok dc =>
              match refView dc.info with
              | .error e => .error e
              | .ok t1 =>
                let i0 := if clustIndIn < N_DIRECT then 0 else clustIndIn - N_DIRECT
                sweepI1 nInode op t1 (RPC - i0) i0 s
          else .ok ((), s)
        match partI1 with
        | .error e => .error e
        | .ok (_, s) =>
          if clustIndIn < N_DIRECT then
            sweepDirect nInode op inode.d (N_DIRECT - clustIndIn) clustIndIn s
          else .ok ((), s)

/-- C strlen of a byte list holding a C string. -/
def strlen (l : List Nat) : Nat := (cstr l).length

/-- Size in bytes of a directory entry record (sizeof SODirEntry: MAX_NAME + 1 name
bytes plus the 4-byte inode number). -/
def sizeof_SODirEntry : Nat := 16

/-- An empty (free and clean) directory entry: all-NUL name and NULL_INODE. -/
def emptyEnt : SODirEntry := ⟨nameBlank, NULL_INODE⟩

/-- Inner scan of soGetDirEntryByName over the entries of one directory cluster
(sofs_ifuncs_4/soGetDirEntryByName.c, lines 100-116): j is the entry index, base the
index of the cluster's first entry, flag the index of the first free entry seen so
far.  Returns the match (entry inode and index) or the updated flag. -/
def gdeScanEntries (eName : List Nat) (de : List SODirEntry) (base : Nat) :
    Nat → Nat → Option Nat → Except Int (Sum (Nat × Nat) (Option Nat))
  | 0, _, flag => .ok (.inr flag)
  | remaining + 1, j, flag =>
    match dget de j with
    | .error e => .error e
    | .ok ent =>
      if cstr ent.name = cstr eName then .ok (.inl (ent.nInode, base + j))
      else
        match lget ent.name 0, lget ent.name MAX_NAME with
        | .error e, _ => .error e
        | _, .error e => .error e
        | .ok b0, .ok bM =>
          let flag := if b0 = 0 ∧ bM = 0 ∧ flag = none then some (base + j) else flag
          gdeScanEntries eName de base remaining (j + 1) flag

/-- Outer scan of soGetDirEntryByName over the directory clusters
(sofs_ifuncs_4/soGetDirEntryByName.c, lines 96-117). -/
def gdeScanClusters (nInodeDir : Nat) (eName : List Nat) :
    Nat → Nat → Option Nat → FS → Except Int ((Option (Nat × Nat) × Option Nat) × FS)
  | 0, _, flag, s => .ok ((none, flag), s)
  | remaining + 1, idxCluster, flag, s =>
    match soReadFileCluster nInodeDir idxCluster s with
    | .error e => .error e
    | .ok (dc, s) =>
      match deView dc.info with
      | .error e => .error e
      | .ok de =>
        match gdeScanEntries eName de (idxCluster * DPC) DPC 0 flag with
        | .error e => .error e
        | .ok (.inl found) => .ok ((some found, flag), s)
        | .ok (.inr flag) => gdeScanClusters nInodeDir eName remaining (idxCluster + 1) flag s

/-- Modelled from the spec (section 4.8): soQCheckDirCont, directory content sane:
the first two entries of the directory's first cluster are the names dot and
dot-dot. -/
def soQCheckDirCont (ino : SOInode) (s : FS) : Except Int Unit :=
  match lget ino.d 0 with
  | .error e => .error e
  | .ok c0 =>
    if c0 = NULL_CLUSTER then .error (-EDIRINVAL)
    else
      match soReadCacheCluster (u32 (s.sb.dZoneStart + c0 * BLOCKS_PER_CLUSTER)) s with
      | .error e => .error e
      | .ok dc =>
        match deView dc.info with
        | .error e => .error e
        | .ok de =>
          match dget de 0, dget de 1 with
          | .error e, _ => .error e
          | _, .error e => .error e
          | .ok e0, .ok e1 =>
            if cstr e0.name = [46] ∧ cstr e1.name = [46, 46] then .ok ()
            else .error (-EDIRINVAL)

/-- Get a directory entry by name (sofs_ifuncs_4/soGetDirEntryByName.c, lines
62-125).  The returned triple holds the C return value (0 or -ENOENT), the value
stored through p_nInodeEnt and the value stored through p_idx; failures of the
callees are Except errors as everywhere else. -/
def soGetDirEntryByName (nInodeDir : Nat) (eName : List Nat) (s : FS) :
    Except Int ((Int × Option Nat × Option Nat) × FS) :=
  if strlen eName = 0 ∨ nInodeDir ≥ s.sb.iTotal ∨ 47 ∈ cstr eName then .error (-EINVAL)
  else if strlen eName > MAX_NAME then .error (-ENAMETOOLONG)
  else
    match soReadInode nInodeDir IUIN s with
    | .error e => .error e
    | .ok (inode, s) =>
      if inode.mode &&& INODE_TYPE_MASK ≠ INODE_DIR then .error (-ENOTDIR)
      else
        match soQCheckDirCont inode s with
        | .error e => .error e
        | .ok _ =>
          match soAccessGranted nInodeDir X s with
          | .error e => .error e
          | .ok (_, s) =>
            let nclusters := inode.size / (DPC * sizeof_SODirEntry)
            match gdeScanClusters nInodeDir eName nclusters 0 none s with
            | .error e => .error e
            | .ok ((some (entInode, idx), _), s) => .ok ((0, some entInode, some idx), s)
            | .ok ((none, flag), s) =>
              match flag with
              | some freeIdx => .ok ((-ENOENT, none, some freeIdx), s)
              | none => .ok ((-ENOENT, none, some (inode.cluCount * DPC)), s)

/-- Modelled from the spec (section 4.7): scanning loop of soCheckDirectoryEmptiness
of sofs_ifuncs_4, which is declared in soRemDetachDirEntry.c but whose implementation
file is not under src.  Per the spec, removal of a directory entry requires the
subsidiary directory to hold no entries besides dot and dot-dot; every entry at index
2 or above must have a NUL first name byte, otherwise ENOTEMPTY. -/
def cdeScan (nInodeDir : Nat) : Nat → Nat → FS → SOR Unit
  | 0, _, s => .ok ((), s)
  | remaining + 1, idxCluster, s =>
    match soReadFileCluster nInodeDir idxCluster s with
    | .error e => .error e
    | .ok (dc, s) =>
      match deView dc.info with
      | .error e => .error e
      | .ok de =>
        let occupied := de.enum.any (fun p =>
          decide (¬ (idxCluster = 0 ∧ p.1 < 2)) &&
          decide (p.2.name.getD 0 0 ≠ 0))
        if occupied then .error (-ENOTEMPTY)
        else cdeScan nInodeDir remaining (idxCluster + 1) s

/-- Modelled from the spec (section 4.7), body of soCheckDirectoryEmptiness: the
subsidiary directory must be in use, of directory type, and hold nothing besides dot
and dot-dot. -/
def soCheckDirectoryEmptiness (nInodeDir : Nat) (s : FS) : SOR Unit :=
  match soReadInode nInodeDir IUIN s with
  | .error e => .error e
  | .ok (inode, s) =>
    if inode.mode &&& INODE_TYPE_MASK ≠ INODE_DIR then .error (-ENOTDIR)
    else cdeScan nInodeDir (inode.size / (DPC * sizeof_SODirEntry)) 0 s

/-- Add a generic entry to a directory, or attach a subsidiary directory
(sofs_ifuncs_4/soAddAttDirEntry.c, lines 89-281).  When soGetDirEntryByName fails
with a code other than 0 and -ENOENT the C proceeds with an uninitialized slot
index, which is undefined behaviour; the model returns a storage error there. -/
def soAddAttDirEntry (nInodeDir : Nat) (eName : List Nat) (nInodeEnt op : Nat)
    (s : FS) : SOR Unit :=
  if nInodeDir > s.sb.iTotal then .error (-EINVAL)
  else if nInodeEnt > s.sb.iTotal then .error (-EINVAL)
  else if strlen eName > MAX_NAME then .error (-ENAMETOOLONG)
  else
    match soReadInode nInodeDir IUIN s with
    | .error e => .error e
    | .ok (InodeDir, s) =>
      if InodeDir.mode &&& INODE_DIR ≠ INODE_DIR then .error (-ENOTDIR)
      else if InodeDir.refCount ≥ 65536 - 2 then .error (-EMLINK)
      else
        match soAccessGranted nInodeDir X s with
        | .error e => .error e
        | .ok (_, s) =>
          match soAccessGranted nInodeDir W s with
          | .error e => .error e
          | .ok (_, s) =>
            match soGetDirEntryByName nInodeDir eName s with
            | .error _ => .error (-ELIBBAD)
            | .ok ((ret, _, idxOpt), s) =>
              if ret = 0 then .error (-EEXIST)
              else
                match idxOpt with
                | none => .error (-ELIBBAD)
                | some idx =>
                  let caseAdd : Except Int ((SOInode × SOInode) × FS) :=
                    match soReadInode nInodeEnt IUIN s with
                    | .error e => .error e
                    | .ok (InodeEnt, s) =>
                      let type := InodeEnt.mode &&& INODE_TYPE_MASK
                      if type = INODE_DIR then
                        let de0 : SODirEntry := ⟨strncpyN [46] (MAX_NAME + 1), nInodeEnt⟩
                        let de1 : SODirEntry := ⟨strncpyN [46, 46] (MAX_NAME + 1), nInodeDir⟩
                        let dcEnt : SODataClust :=
                          ⟨0, 0, 0, .dirents (de0 :: de1 :: List.replicate (DPC - 2) emptyEnt)⟩
                        match soWriteFileCluster nInodeEnt 0 dcEnt s with
                        | .error e => .error e
                        | .ok (_, s) =>
                          match soReadInode nInodeEnt IUIN s with
                          | .error e => .error e
                          | .ok (InodeEnt, s) =>
                            let InodeEnt := { InodeEnt with refCount := InodeEnt.refCount + 2, size := sizeof_SODirEntry * DPC }
                            .ok ((InodeEnt, { InodeDir with refCount := InodeDir.refCount + 1 }), s)
                      else if type = INODE_FILE ∨ type = INODE_SYMLINK then
                        .ok (({ InodeEnt with refCount := InodeEnt.refCount + 1 }, InodeDir), s)
                      else .error (-EIUININVAL)
                  let caseAttach : Except Int ((SOInode × SOInode) × FS) :=
                    match soReadInode nInodeEnt IUIN s with
                    | .error e => .error e
                    | .ok (InodeEnt, s) =>
                      let type := InodeEnt.mode &&& INODE_TYPE_MASK
                      if type = INODE_DIR then
                        if InodeEnt.mode &&& INODE_DIR ≠ INODE_DIR then .error (-ENOTDIR)
                        else if InodeEnt.refCount ≥ 65200 - 2 then .error (-EMLINK)
                        else
                          match soReadFileCluster nInodeEnt 0 s with
                          | .error e => .error e
                          | .ok (dcEnt, s) =>
                            match deView dcEnt.info with
                            | .error e => .error e
                            | .ok deEnt =>
                              let de0 : SODirEntry := ⟨strncpyN [46] (MAX_NAME + 1), nInodeEnt⟩
                              let de1 : SODirEntry := ⟨strncpyN [46, 46] (MAX_NAME + 1), nInodeDir⟩
                              let deEnt := (deEnt.set 0 de0).set 1 de1
                              match soWriteFileCluster nInodeEnt 0
                                  { dcEnt with info := .dirents deEnt } s with
                              | .error e => .error e
                              | .ok (_, s) =>
                                match soReadInode nInodeEnt IUIN s with
                                | .error e => .error e
                                | .ok (InodeEnt, s) =>
                                  let InodeEnt := { InodeEnt with refCount := InodeEnt.refCount + 2 }
                                  .ok ((InodeEnt, { InodeDir with refCount := InodeDir.refCount + 1 }), s)
                      else if type = INODE_FILE ∨ type = INODE_SYMLINK then
                        .ok (({ InodeEnt with refCount := InodeEnt.refCount + 1 }, InodeDir), s)
                      else .error (-EIUININVAL)
                  let dispatched : Except Int ((SOInode × SOInode) × FS) :=
                    if op = ADD then caseAdd
                    else if op = ATTACH then caseAttach
                    else .error (-EINVAL)
                  match dispatched with
                  | .error e => .error e
                  | .ok ((InodeEnt, InodeDir), s) =>
                    let i := idx / DPC
                    let k := idx % DPC
                    match soReadFileCluster nInodeDir i s with
                    | .error e => .error e
                    | .ok (dc, s) =>
                      match deView dc.info with
                      | .error e => .error e
                      | .ok de =>
                        let entNew : SODirEntry := ⟨strncpyN eName (MAX_NAME + 1), nInodeEnt⟩
                        let de := de.set k entNew
                        let fresh := k = 0 ∧ i > 0
                        let de := if fresh then
                            match de with
                            | [] => []
                            | e0 :: _ => e0 :: List.replicate (DPC - 1) emptyEnt
                          else de
                        let InodeDir := if fresh then
                            { InodeDir with size := InodeDir.size + sizeof_SODirEntry * DPC }
                          else InodeDir
                        match soWriteInode InodeDir nInodeDir IUIN s with
                        | .error e => .error e
                        | .ok (_, s) =>
                          match soWriteFileCluster nInodeDir i { dc with info := .dirents de } s with
                          | .error e => .error e
                          | .ok (_, s) => soWriteInode InodeEnt nInodeEnt IUIN s

/-- The DETACH name wipe: NUL into every byte of the name field. -/
def zeroName (l : List Nat) : List Nat :=
  (l.take (MAX_NAME + 1)).map (fun _ => 0) ++ l.drop (MAX_NAME + 1)

/-- Remove or detach a generic entry from a directory
(sofs_ifuncs_4/soRemDetachDirEntry.c, lines 83-202).  REM exchanges the first and
last bytes of the name field; DETACH wipes the name and resets nInode. -/
def soRemDetachDirEntry (nInodeDir : Nat) (eName : List Nat) (op : Nat) (s : FS) : SOR Unit :=
  if (op ≠ DETACH ∧ op ≠ REM) ∨ nInodeDir > s.sb.iTotal then .error (-EINVAL)
  else
    match soReadInode nInodeDir IUIN s with
    | .error e => .error e
    | .ok (inodeDir, s) =>
      if inodeDir.mode &&& INODE_DIR ≠ INODE_DIR then .error (-ENOTDIR)
      else
        match soQCheckDirCont inodeDir s with
        | .error e => .error e
        | .ok _ =>
          if strlen eName > MAX_NAME then .error (-ENAMETOOLONG)
          else
            match soAccessGranted nInodeDir X s with
            | .error _ => .error (-EACCES)
            | .ok (_, s) =>
              match soAccessGranted nInodeDir W s with
              | .error _ => .error (-EPERM)
              | .ok (_, s) =>
                match soGetDirEntryByName nInodeDir eName s with
                | .error e => .error e
                | .ok ((ret, entOpt, idxOpt), s) =>
                  if ret ≠ 0 then .error ret
                  else
                    match entOpt, idxOpt with
                    | some nInodeEnt, some dirInd =>
                      match soReadInode nInodeEnt IUIN s with
                      | .error e => .error e
                      | .ok (inodeEnt, s) =>
                        let clustInd := dirInd / DPC
                        let entInd := dirInd % DPC
                        if nInodeDir ≥ s.sb.iTableSize then .error (-EINVAL)
                        else
                          let remPart : Except Int (SODataClust × FS) :=
                            if op = REM then
                              let checked : SOR Unit :=
                                if inodeEnt.mode &&& INODE_DIR = INODE_DIR then
                                  soCheckDirectoryEmptiness nInodeEnt s
                                else .ok ((), s)
                              match checked with
                              | .error e => .error e
                              | .ok (_, s) =>
                                match soReadFileCluster nInodeDir clustInd s with
                                | .error e => .error e
                                | .ok (dc, s) =>
                                  match deView dc.info with
                                  | .error e => .error e
                                  | .ok de =>
                                    match dget de entInd with
                                    | .error e => .error e
                                    | .ok ent =>
                                      match lget ent.name 0 with
                                      | .error e => .error e
                                      | .ok b0 =>
                                        let name2 := (ent.name.set MAX_NAME b0).set 0 0
                                        let de := de.set entInd { ent with name := name2 }
                                        .ok (({ dc with info := .dirents de }, s) : SODataClust × FS)
                            else
                              match soReadFileCluster nInodeDir clustInd s with
                              | .error e => .error e
                              | .ok (dc, s) =>
                                match deView dc.info with
                                | .error e => .error e
                                | .ok de =>
                                  match dget de entInd with
                                  | .error e => .error e
                                  | .ok ent =>
                                    let de := de.set entInd ⟨zeroName ent.name, NULL_INODE⟩
                                    .ok (({ dc with info := .dirents de }, s) : SODataClust × FS)
                          match remPart with
                          | .error e => .error e
                          | .ok (dc, s) =>
                            match soWriteFileCluster nInodeDir clustInd dc s with
                            | .error e => .error e
                            | .ok (_, s) =>
                              let isDir := inodeEnt.mode &&& INODE_DIR = INODE_DIR
                              let inodeEnt := if isDir then
                                  { inodeEnt with refCount := u16sub inodeEnt.refCount 2 }
                                else { inodeEnt with refCount := u16sub inodeEnt.refCount 1 }
                              let inodeDir := if isDir then
                                  { inodeDir with refCount := u16sub inodeDir.refCount 1 }
                                else inodeDir
                              match soWriteInode inodeEnt nInodeEnt IUIN s with
                              | .error e => .error e
                              | .ok (_, s) =>
                                let freePart : SOR Unit :=
                                  if inodeEnt.refCount = 0 ∧ op = REM then
                                    match soHandleFileClusters nInodeEnt 0 FREE s with
                                    | .error e => .error e
                                    | .ok (_, s) => soFreeInode nInodeEnt s
                                  else .ok ((), s)
                                match freePart with
                                | .error e => .error e
                                | .ok (_, s) => soWriteInode inodeDir nInodeDir IUIN s
                    | _, _ => .error (-ELIBBAD)

/-- Fill in the superblock fields (src/mkfs14/mkfs_sofs14.c, fillInSuperBlock, lines
316-365): magic is left at 0xFFFF until the final commit, the free-inode list is
declared as 1 .. itotal-1 with head 1 and tail itotal-1, the data zone free chain as
1 .. nclusttotal-1, and both caches are emptied. -/
def fillInSuperBlock (ntotal itotal nclusttotal : Nat) (name : List Nat) : SOSuperBlock :=
  { magic := 65535
    version := VERSION_NUMBER
    name := (strncpyN name (PARTITION_NAME_SIZE + 1)).set PARTITION_NAME_SIZE 0
    nTotal := ntotal
    mStat := PRU
    iTableStart := 1
    iTableSize := itotal / IPB
    iTotal := itotal
    iFree := u32sub itotal 1
    iHead := 1
    iTail := u32sub itotal 1
    dZoneStart := 1 + itotal / IPB
    dZoneTotal := nclusttotal
    dZoneFree := u32sub nclusttotal 1
    dHead := 1
    dTail := u32sub nclusttotal 1
    dZoneRetriev := ⟨DZONE_CACHE_SIZE, List.replicate DZONE_CACHE_SIZE NULL_CLUSTER⟩
    dZoneInsert := ⟨0, List.replicate DZONE_CACHE_SIZE NULL_CLUSTER⟩ }

/-- Per-inode initialization of fillInINT (src/mkfs14/mkfs_sofs14.c, lines 388-433):
the generic free initialization with next = inode + 1 and prev = inode - 1 (unsigned),
then the three specific cases applied in source order: the root inode 0, inode 1
(prev becomes NULL_INODE), and the last inode iTotal - 1 (next becomes NULL_INODE). -/
def fillInINTInode (sb : SOSuperBlock) (uid gid now : Nat) (inode : Nat) : SOInode :=
  let soin : SOInode :=
    { mode := INODE_FREE, refCount := 0, owner := 0, group := 0, size := 0, cluCount := 0,
      vD1 := u32 (inode + 1), vD2 := u32sub inode 1,
      d := List.replicate N_DIRECT NULL_CLUSTER, i1 := NULL_CLUSTER, i2 := NULL_CLUSTER }
  let soin := if inode = 0 then
      { soin with
        mode := INODE_DIR ||| INODE_RD_USR ||| INODE_WR_USR ||| INODE_EX_USR |||
          INODE_RD_GRP ||| INODE_WR_GRP ||| INODE_EX_GRP |||
          INODE_RD_OTH ||| INODE_WR_OTH ||| INODE_EX_OTH
        refCount := 2, owner := uid, group := gid
        size := DPC * sizeof_SODirEntry, cluCount := 1
        vD1 := now, vD2 := now
        d := (List.replicate N_DIRECT NULL_CLUSTER).set 0 0 }
    else soin
  let soin := if inode = 1 then { soin with vD1 := u32 (inode + 1), vD2 := NULL_INODE }
    else soin
  let soin := if inode = u32sub sb.iTotal 1 then
      { soin with vD1 := NULL_INODE, vD2 := u32sub inode 1 }
    else soin
  soin

/-- Fill in the inode table (src/mkfs14/mkfs_sofs14.c, fillInINT, lines 372-442): the
nested loops cover the inodes of the iTableSize blocks of the table, that is the
indices below iTableSize * IPB; the rest of the table is never loaded. -/
def fillInINT (s : FS) : SOR Unit :=
  let bound := s.sb.iTableSize * IPB
  if bound ≤ s.itable.length then
    let itable2 := (List.range s.itable.length).map (fun n =>
      if n < bound then fillInINTInode s.sb s.uid s.gid s.now n
      else s.itable.getD n default)
    .ok ((), { s with itable := itable2 })
  else .error (-EIOerr)

/-- Fill in the contents of the root directory (src/mkfs14/mkfs_sofs14.c,
fillInRootDir, lines 450-484): cluster 0 gets stat 0, NULL chain links, the entries
dot and dot-dot referencing inode 0 and every other entry empty with nInode
NULL_INODE (the whole structure was memset to zero first). -/
def fillInRootDir (s : FS) : SOR Unit :=
  let de0 : SODirEntry := ⟨strncpyN [46] (MAX_NAME + 1), 0⟩
  let de1 : SODirEntry := ⟨strncpyN [46, 46] (MAX_NAME + 1), 0⟩
  let dc : SODataClust :=
    ⟨NULL_CLUSTER, NULL_CLUSTER, 0, .dirents (de0 :: de1 :: List.replicate (DPC - 2) ⟨nameBlank, NULL_INODE⟩)⟩
  soWriteCacheCluster s.sb.dZoneStart dc s

/-- Loop of fillInGenRep (src/mkfs14/mkfs_sofs14.c, lines 516-543) writing the
free-cluster chain nodes 1 .. dZoneTotal - 1 in ascending order; each node carries
stat NULL_INODE, prev n - 1 (NULL_CLUSTER for the first), next n + 1 (NULL_CLUSTER
for the last) and the payload stackInfo (all-zero bytes in zero mode, the reused
uninitialized stack buffer otherwise). -/
def fillInGenRepLoop (stackInfo : ClustInfo) (total : Nat) : Nat → Nat → FS → SOR Unit
  | 0, _, s => .ok ((), s)
  | remaining + 1, n, s =>
    let dc : SODataClust :=
      ⟨if n = 1 then NULL_CLUSTER else n - 1,
       if n = total - 1 then NULL_CLUSTER else n + 1,
       NULL_INODE, stackInfo⟩
    match soWriteCacheCluster (s.sb.dZoneStart + n * BLOCKS_PER_CLUSTER) dc s with
    | .error e => .error e
    | .ok (_, s) => fillInGenRepLoop stackInfo total remaining (n + 1) s

/-- Create the general repository of free data clusters (src/mkfs14/mkfs_sofs14.c,
fillInGenRep, lines 493-546).  junkInfo stands for the uninitialized stack bytes the
C writes as payload when zero mode is off. -/
def fillInGenRep (zero : Bool) (junkInfo : ClustInfo) (s : FS) : SOR Unit :=
  let stackInfo := if zero then ClustInfo.bytes (List.replicate BSLPC 0) else junkInfo
  fillInGenRepLoop stackInfo s.sb.dZoneTotal (u32sub s.sb.dZoneTotal 1) 1 s

/-- The architecture-parameter computation of the mkfs main function
(src/mkfs14/mkfs_sofs14.c, lines 143-151): from the device block count and the
requested inode count (0 meaning the default ntotal / 8), derive the final  ntotal,
itotal and nclusttotal; itotal is iblktotal * IPB, a multiple of IPB. -/
def mkfsParams (ntotal itotalReq : Nat) : Nat × Nat × Nat :=
  let itotal := if itotalReq = 0 then ntotal / 8 else itotalReq
  let iblktotal := if itotal % IPB = 0 then itotal / IPB else itotal / IPB + 1
  let nclusttotal := (ntotal - 1 - iblktotal) / BLOCKS_PER_CLUSTER
  let iblktotal := ntotal - 1 - nclusttotal * BLOCKS_PER_CLUSTER
  (ntotal, iblktotal * IPB, nclusttotal)

/-- The formatting sequence of the mkfs main function (src/mkfs14/mkfs_sofs14.c,
lines 176-254): fill in the superblock with magic 0xFFFF, the inode table, the root
directory and the free-cluster repository, then commit magic = MAGIC_NUMBER. -/
def mkfs_format (ntotal itotal nclusttotal : Nat) (name : List Nat) (zero : Bool)
    (junkInfo : ClustInfo) (s : FS) : SOR Unit :=
  let s := { s with sb := fillInSuperBlock ntotal itotal nclusttotal name }
  match fillInINT s with
  | .error e => .error e
  | .ok (_, s) =>
    match fillInRootDir s with
    | .error e => .error e
    | .ok (_, s) =>
      match fillInGenRep zero junkInfo s with
      | .error e => .error e
      | .ok (_, s) =>
        .ok ((), { s with sb := { s.sb with magic := MAGIC_NUMBER } })

set_option maxHeartbeats 1000000

theorem soHandleDirect_fcc_none {f nInode ci : Nat} {ino : SOInode} {op : Nat} {b : Bool}
    {s : FS} {out : Option Nat} {ino2 : SOInode} {s2 : FS}
    (hop : op = FREE ∨ op = FREE_CLEAN ∨ op = CLEAN)
    (h : soHandleDirect f nInode ino ci op b s = .ok ((out, ino2), s2)) : out = none := by
  cases f with
  | zero => simp [soHandleDirect] at h
  | succ f =>
    rcases hop with rfl | rfl | rfl <;>
    · simp only [soHandleDirect, FREE, GET, ALLOC, CLEAN, FREE_CLEAN] at h
      norm_num at h
      iterate 20 (all_goals (try split at h))
      all_goals (try cases h)
      all_goals rfl

theorem soHandleSIndirect_fcc_none {f nInode ci : Nat} {ino : SOInode} {op : Nat} {b : Bool}
    {s : FS} {out : Option Nat} {ino2 : SOInode} {s2 : FS}
    (hop : op = FREE ∨ op = FREE_CLEAN ∨ op = CLEAN)
    (h : soHandleSIndirect f nInode ino ci op b s = .ok ((out, ino2), s2)) : out = none := by
  cases f with
  | zero => simp [soHandleSIndirect] at h
  | succ f =>
    rcases hop with rfl | rfl | rfl <;>
    · simp only [soHandleSIndirect, FREE, GET, ALLOC, CLEAN, FREE_CLEAN] at h
      norm_num at h
      iterate 20 (all_goals (try split at h))
      all_goals (try cases h)
      all_goals rfl

theorem soHandleDIndirect_fcc_none {f nInode ci : Nat} {ino : SOInode} {op : Nat} {b : Bool}
    {s : FS} {out : Option Nat} {ino2 : SOInode} {s2 : FS}
    (hop : op = FREE ∨ op = FREE_CLEAN ∨ op = CLEAN)
    (h : soHandleDIndirect f nInode ino ci op b s = .ok ((out, ino2), s2)) : out = none := by
  cases f with
  | zero => simp [soHandleDIndirect] at h
  | succ f =>
    rcases hop with rfl | rfl | rfl <;>
    · simp only [soHandleDIndirect, FREE, GET, ALLOC, CLEAN, FREE_CLEAN] at h
      norm_num at h
      iterate 20 (all_goals (try split at h))
      all_goals (try cases h)
      all_goals rfl

/-- A small concrete file system used to instantiate theorems: two inodes (the root
directory and a regular file owning cluster 1), six data clusters, empty caches and
an empty free chain. -/
def sbSmall : SOSuperBlock :=
  { magic := MAGIC_NUMBER, version := VERSION_NUMBER, name := [83, 0], nTotal := 100
    mStat := PRU, iTableStart := 1, iTableSize := 1, iTotal := 2, iFree := 0
    iHead := NULL_INODE, iTail := NULL_INODE
    dZoneStart := 5, dZoneTotal := 6, dZoneFree := 0
    dHead := NULL_CLUSTER, dTail := NULL_CLUSTER
    dZoneRetriev := ⟨DZONE_CACHE_SIZE, List.replicate DZONE_CACHE_SIZE NULL_CLUSTER⟩
    dZoneInsert := ⟨0, List.replicate DZONE_CACHE_SIZE NULL_CLUSTER⟩ }

/-- The root-directory inode of the small concrete file system. -/
def inoRootSmall : SOInode :=
  { mode := INODE_DIR + 511, refCount := 2, owner := 0, group := 0
    size := DPC * sizeof_SODirEntry, cluCount := 1, vD1 := 0, vD2 := 0
    d := 0 :: List.replicate (N_DIRECT - 1) NULL_CLUSTER, i1 := NULL_CLUSTER, i2 := NULL_CLUSTER }

/-- The file inode of the small concrete file system, owning data cluster 1 at file
position 0. -/
def inoFileSmall : SOInode :=
  { mode := INODE_FILE + 511, refCount := 1, owner := 0, group := 0
    size := BSLPC, cluCount := 1, vD1 := 0, vD2 := 0
    d := 1 :: List.replicate (N_DIRECT - 1) NULL_CLUSTER, i1 := NULL_CLUSTER, i2 := NULL_CLUSTER }

instance : Inhabited SODataClust :=
  ⟨⟨0, 0, 0, .bytes []⟩⟩

/-- An all-zero free data cluster. -/
def freeClustSmall : SODataClust :=
  ⟨NULL_CLUSTER, NULL_CLUSTER, NULL_INODE, .bytes (List.replicate BSLPC 0)⟩

/-- The root-directory content cluster of the small concrete file system. -/
def rootDirClustSmall : SODataClust :=
  ⟨NULL_CLUSTER, NULL_CLUSTER, 0,
   .dirents (⟨strncpyN [46] (MAX_NAME + 1), 0⟩ :: ⟨strncpyN [46, 46] (MAX_NAME + 1), 0⟩ ::
     List.replicate (DPC - 2) emptyEnt)⟩

/-- The small concrete file system state. -/
def fsSmall : FS :=
  { sb := sbSmall
    itable := [inoRootSmall, inoFileSmall]
    dzone := rootDirClustSmall ::
      ⟨NULL_CLUSTER, NULL_CLUSTER, 1, .bytes (List.replicate BSLPC 7)⟩ ::
      List.replicate 4 freeClustSmall
    now := 11, uid := 0, gid := 0, euid := 0, egid := 0 }

/-- Claim C10: for the operations FREE, FREE_CLEAN and CLEAN, soHandleFileCluster
does not reject a non-NULL p_outVal: it resets the pointer to NULL before
dispatching, so the outcome is identical to a NULL call, and nothing is ever stored
through the pointer (the stored-value component of a successful run is none).  The
wrong-pointer EINVAL is raised exactly for GET and ALLOC with a NULL pointer (for
any in-range position). -/
theorem C10_soHandleFileCluster_outPtr :
    (∀ op, (op = FREE ∨ op = FREE_CLEAN ∨ op = CLEAN) →
      ∀ (nInode clustInd : Nat) (b : Bool) (s : FS),
        soHandleFileCluster FUEL nInode clustInd op b s =
          soHandleFileCluster FUEL nInode clustInd op true s) ∧
    (∀ op, (op = FREE ∨ op = FREE_CLEAN ∨ op = CLEAN) →
      ∀ (nInode clustInd : Nat) (b : Bool) (s : FS),
        Except.map Prod.fst (soHandleFileCluster FUEL nInode clustInd op b s) =
          Except.map (fun _ => (none : Option Nat))
            (soHandleFileCluster FUEL nInode clustInd op b s)) ∧
    (∀ op, (op = GET ∨ op = ALLOC) →
      ∀ (nInode clustInd : Nat) (s : FS), clustInd < MAX_FILE_CLUSTERS →
        soHandleFileCluster FUEL nInode clustInd op true s = .error (-EINVAL)) := by
  refine ⟨?_, ?_, ?_⟩
  · intro op hop nInode ci b s
    rcases hop with rfl | rfl | rfl <;>
    simp [soHandleFileCluster, FUEL, FREE, FREE_CLEAN, CLEAN, GET, ALLOC]
  · intro op hop nInode ci b s
    rcases hop with rfl | rfl | rfl <;>
    · cases h : soHandleFileCluster FUEL nInode ci _ b s with
      | error e => rfl
      | ok r =>
        obtain ⟨out, s1⟩ := r
        simp only [Except.map]
        simp only [soHandleFileCluster, FUEL, FREE, FREE_CLEAN, CLEAN, GET, ALLOC] at h
        norm_num at h
        iterate 10 (all_goals (try split at h))
        all_goals (try cases h)
        all_goals simp
        all_goals (rename_i hd hw
                   iterate 3 (all_goals (try split at hd))
                   all_goals (first
                    | exact soHandleDirect_fcc_none (by decide) hd
                    | exact soHandleSIndirect_fcc_none (by decide) hd
                    | exact soHandleDIndirect_fcc_none (by decide) hd))
  · intro op hop nInode ci s hci
    rcases hop with rfl | rfl <;>
    · simp only [soHandleFileCluster, FUEL, GET, ALLOC]
      rw [if_neg (by omega)]
      norm_num

/-- Witness for C10: the three parts applied at the operations FREE and GET, inode 1,
position 0 and the small concrete state. -/
theorem C10_soHandleFileCluster_outPtr_witness :
    soHandleFileCluster FUEL 1 0 FREE false fsSmall =
      soHandleFileCluster FUEL 1 0 FREE true fsSmall ∧
    Except.map Prod.fst (soHandleFileCluster FUEL 1 0 FREE false fsSmall) =
      Except.map (fun _ => (none : Option Nat))
        (soHandleFileCluster FUEL 1 0 FREE false fsSmall) ∧
    soHandleFileCluster FUEL 1 0 GET true fsSmall = .error (-EINVAL) :=
  ⟨C10_soHandleFileCluster_outPtr.1 FREE (Or.inl rfl) 1 0 false fsSmall,
   C10_soHandleFileCluster_outPtr.2.1 FREE (Or.inl rfl) 1 0 false fsSmall,
   C10_soHandleFileCluster_outPtr.2.2 GET (Or.inl rfl) 1 0 fsSmall (by decide)⟩

deriving instance DecidableEq for Except

/-- Claim C8: refuted on the source.  soAttachLogicalCluster guards the successor
lookup with clustInd != MAX_FILE_CLUSTERS instead of MAX_FILE_CLUSTERS - 1, so at
the last legal position it performs the recursive GET at position
MAX_FILE_CLUSTERS, which soHandleFileCluster rejects with -EINVAL; attaching (and
hence allocating) the cluster of the last file position therefore fails instead of
succeeding with next = NULL_CLUSTER.  Evaluated at the failing input on the small
concrete state whose cluster 1 carries stat = 1. -/
theorem C8_soAttachLogicalCluster_lastPosition :
    soAttachLogicalCluster FUEL 1 (MAX_FILE_CLUSTERS - 1) 1 fsSmall = .error (-EINVAL) := by
  decide

/-- A node of the concrete on-disk free chain 6 .. 10 used for the C5 refutation. -/
def chainNodeRep (n : Nat) : SODataClust :=
  ⟨if n = 6 then NULL_CLUSTER else n - 1, if n = 10 then NULL_CLUSTER else n + 1,
   NULL_INODE, .bytes (List.replicate BSLPC 0)⟩

/-- A consistent state whose retrieval cache is full (cacheIdx = 0, holding clusters
1 .. DZONE_CACHE_SIZE) and whose free chain holds the 5 clusters 6 .. 10, so that
dZoneFree = 0 + 5 + 5 = 10 matches the bookkeeping equation. -/
def fsRep : FS :=
  { sb := { sbSmall with
      dZoneTotal := 12
      dZoneFree := 10
      dHead := 6
      dTail := 10
      dZoneRetriev := ⟨0, (List.range DZONE_CACHE_SIZE).map (fun i => i + 1)⟩ }
    itable := [inoRootSmall, inoFileSmall]
    dzone := (List.range 12).map (fun n =>
      if 6 ≤ n ∧ n ≤ 10 then chainNodeRep n else freeClustSmall)
    now := 11, uid := 0, gid := 0, euid := 0, egid := 0 }

/-- Claim C5: refuted on the source.  First conjunct: soDeplete on a superblock with
an empty insertion cache (fsSmall has dZoneInsert.cacheIdx = 0) is not a no-op: the
final assignment dTail = dZoneInsert.cache of index cacheIdx - 1 computes the index
in unsigned arithmetic, reads slot 2^32 - 1 far out of bounds (undefined behaviour,
a storage error in the model) and would overwrite dTail with its content.  Remaining
conjuncts: soReplenish on a consistent state whose retrieval cache is already full
is not a no-op either: it overwrites the cached references 1 .. 5 with the chain
nodes 6 .. 10 and empties the chain (dHead becomes NULL_CLUSTER), leaking the
previously cached clusters. -/
theorem C5_soDeplete_soReplenish_not_noops :
    soDeplete fsSmall = .error (-ELIBBAD) ∧
    fsSmall.sb.dZoneInsert.cacheIdx = 0 ∧
    fsRep.sb.dZoneRetriev.cacheIdx = 0 ∧
    fsRep.sb.dZoneRetriev.cache.take 2 = [1, 2] ∧
    fsRep.sb.dHead = 6 ∧
    Except.map (fun r => (r.2.sb.dZoneRetriev.cache.take 2, r.2.sb.dHead, r.2.sb.dTail))
      (soReplenish fsRep) = .ok ([6, 7], NULL_CLUSTER, NULL_CLUSTER) := by
  refine ⟨by decide, by decide, by decide, by decide, by decide, ?_⟩
  decide

/-- A free-dirty file inode holding one data cluster (cluster 4) at file position
N_DIRECT + RPC + RPC, reached through the double-indirect table (cluster 2) whose
outer slot 0 is empty and whose outer slot 1 references the inner table cluster 3. -/
def inoSweep : SOInode :=
  { mode := INODE_FILE + INODE_FREE, refCount := 0, owner := 0, group := 0
    size := BSLPC, cluCount := 3, vD1 := 0, vD2 := 0
    d := List.replicate N_DIRECT NULL_CLUSTER, i1 := NULL_CLUSTER, i2 := 2 }

/-- The concrete state for the C4 refutation: the file of inoSweep (inode 1) has its
only data cluster at position N_DIRECT + RPC + RPC, under outer index 1 of the
double-indirect tree, while outer index 0 is a hole. -/
def fsSweep : FS :=
  { sb := sbSmall
    itable := [inoRootSmall, inoSweep]
    dzone := [rootDirClustSmall,
      freeClustSmall,
      ⟨NULL_CLUSTER, NULL_CLUSTER, 1, .refs ((List.replicate RPC NULL_CLUSTER).set 1 3)⟩,
      ⟨NULL_CLUSTER, NULL_CLUSTER, 1, .refs ((List.replicate RPC NULL_CLUSTER).set 0 4)⟩,
      ⟨NULL_CLUSTER, NULL_CLUSTER, 1, .bytes (List.replicate BSLPC 9)⟩,
      freeClustSmall]
    now := 11, uid := 0, gid := 0, euid := 0, egid := 0 }

/-- Claim C4: refuted on the source.  In the double-indirect loop of
soHandleFileClusters the inner start index i is reset to 0 only inside the branch
that processes a non-NULL outer reference; when the outer slot of the starting
index is NULL, the stale i is applied to the next non-NULL sub-table, skipping its
first i positions.  On fsSweep with startIdx = N_DIRECT + RPC + 1 (outer 0, inner 1)
the allocated position N_DIRECT + RPC + RPC (outer 1, inner 0, which is at or above
startIdx) is skipped and the whole sweep is the identity (first conjunct), although
that same position is perfectly processable: sweeping from it cleans the cluster
and dissociates the whole i2 sub-tree (second conjunct). -/
theorem C4_soHandleFileClusters_skips_positions :
    soHandleFileClusters 1 (N_DIRECT + RPC + 1) CLEAN fsSweep = .ok ((), fsSweep) ∧
    Except.map (fun r => ((r.2.dzone.getD 4 default).stat, (r.2.itable.getD 1 default).i2,
        (r.2.itable.getD 1 default).cluCount))
      (soHandleFileClusters 1 (N_DIRECT + RPC + RPC) CLEAN fsSweep) =
      .ok (NULL_INODE, NULL_CLUSTER, 0) := by
  constructor
  · decide
  · decide

@[simp] theorem setInode_sb (s : FS) (n : Nat) (i : SOInode) : (setInode s n i).sb = s.sb := rfl

@[simp] theorem setInode_dzone (s : FS) (n : Nat) (i : SOInode) :
    (setInode s n i).dzone = s.dzone := rfl

@[simp] theorem setInode_now (s : FS) (n : Nat) (i : SOInode) : (setInode s n i).now = s.now := rfl

@[simp] theorem setInode_uid (s : FS) (n : Nat) (i : SOInode) : (setInode s n i).uid = s.uid := rfl

@[simp] theorem setInode_gid (s : FS) (n : Nat) (i : SOInode) : (setInode s n i).gid = s.gid := rfl

@[simp] theorem setInode_euid (s : FS) (n : Nat) (i : SOInode) :
    (setInode s n i).euid = s.euid := rfl

@[simp] theorem setInode_egid (s : FS) (n : Nat) (i : SOInode) :
    (setInode s n i).egid = s.egid := rfl

/-- Written from the spec's words for claim C6 (amended to real ids): every
requested bit of the operation mask must be present in the class triplet given by
the bit masks rb / wb / xb. -/
def tripletOK (mode op rb wb xb : Nat) : Bool :=
  (decide (op &&& R = 0) || decide (mode &&& rb = rb)) &&
  (decide (op &&& W = 0) || decide (mode &&& wb = wb)) &&
  (decide (op &&& X = 0) || decide (mode &&& xb = xb))

/-- Written from the spec's words for claim C6, with the single amendment the code
forces: the root test uses the effective uid, reads and writes are always granted to
root and an execute request needs some execute bit; for everyone else the class is
owner, group or other according to the caller's real uid and gid (getuid / getgid,
not the effective ids the claim names), and every requested bit must be set in that
class's triplet. -/
def accessGrantedSpec (uid gid euid : Nat) (ino : SOInode) (op : Nat) : Bool :=
  if euid = 0 then
    decide (op &&& X = 0) ||
      decide (ino.mode &&& (INODE_EX_USR ||| INODE_EX_GRP ||| INODE_EX_OTH) ≠ 0)
  else if uid = ino.owner then tripletOK ino.mode op INODE_RD_USR INODE_WR_USR INODE_EX_USR
  else if gid = ino.group then tripletOK ino.mode op INODE_RD_GRP INODE_WR_GRP INODE_EX_GRP
  else tripletOK ino.mode op INODE_RD_OTH INODE_WR_OTH INODE_EX_OTH

/-- The inode of the C6 counterexample: owned by uid 100, group 50, with rwx for the
user class, read for the group class and nothing for others. -/
def inoAcc : SOInode :=
  { mode := INODE_FILE + INODE_RD_USR + INODE_WR_USR + INODE_EX_USR + INODE_RD_GRP
    refCount := 1, owner := 100, group := 50, size := 0, cluCount := 0, vD1 := 0, vD2 := 0
    d := List.replicate N_DIRECT NULL_CLUSTER, i1 := NULL_CLUSTER, i2 := NULL_CLUSTER }

/-- The state of the C6 counterexample: the caller's effective uid 100 matches the
owner of inode 1 but the real uid 200 does not; the real gid matches the group. -/
def fsAcc : FS :=
  { sb := sbSmall, itable := [inoRootSmall, inoAcc],
    dzone := rootDirClustSmall :: List.replicate 5 freeClustSmall,
    now := 11, uid := 200, gid := 50, euid := 100, egid := 50 }

/-- Counterexample to claim C6 as stated: on fsAcc the caller's effective uid equals
the inode's owner and the owner triplet contains the requested write bit, so the
claim predicts success, but soAccessGranted classifies by the real uid (getuid),
falls into the group class whose triplet lacks the write bit, and denies with
-EACCES. -/
theorem C6_counterexample_effective_uid :
    fsAcc.euid = (fsAcc.itable.getD 1 default).owner ∧
    (fsAcc.itable.getD 1 default).mode &&& INODE_WR_USR = INODE_WR_USR ∧
    fsAcc.euid ≠ 0 ∧
    soAccessGranted 1 W fsAcc = .error (-EACCES) := by
  refine ⟨by decide, by decide, by decide, by decide⟩

/-- Claim C6, amended: for an in-use inode and a nonzero opMask below 8,
soAccessGranted grants root (by effective uid) everything except an execute request
with no execute bit anywhere, and for everyone else grants exactly when the class
triplet selected by the caller's real uid and gid contains every requested bit,
denying with -EACCES otherwise (the access-time update of the read is the only state
change). -/
theorem C6_soAccessGranted_realIds (s : FS) (nInode op : Nat) (ino : SOInode)
    (hop1 : 1 ≤ op) (hop7 : op ≤ 7) (hn : nInode < s.sb.iTotal)
    (hi : getInode s nInode = .ok ino) (hiu : soQCheckInodeIU ino = .ok ()) :
    soAccessGranted nInode op s =
      (if accessGrantedSpec s.uid s.gid s.euid ino op then
        .ok ((), setInode s nInode { ino with vD1 := s.now })
      else .error (-EACCES)) := by
  simp only [soAccessGranted, soReadInode, accessGrantedSpec, tripletOK, IUIN, FDIN]
  rw [if_neg (by omega), if_neg (by omega), if_neg (by omega), hi]
  simp only [hiu]
  norm_num
  split_ifs <;> tauto

/-- Witness for the amended C6 theorem, applied at the state fsAcc, inode 1 and a
write request. -/
theorem C6_soAccessGranted_realIds_witness :
    soAccessGranted 1 W fsAcc =
      (if accessGrantedSpec fsAcc.uid fsAcc.gid fsAcc.euid inoAcc W then
        .ok ((), setInode fsAcc 1 { inoAcc with vD1 := fsAcc.now })
      else .error (-EACCES)) :=
  C6_soAccessGranted_realIds fsAcc 1 W inoAcc (by decide) (by decide) (by decide)
    (by decide) (by decide)

/-- Writing back the element a list already holds at an index leaves the list
unchanged. -/
theorem List_set_get_self {α : Type} (l : List α) (n : Nat) (v : α)
    (h : l.get? n = some v) : l.set n v = l := by
  induction l generalizing n with
  | nil => simp at h
  | cons a tl ih =>
    cases n with
    | zero => simp at h; simp [h]
    | succ m =>
      simp only [List.get?_cons_succ] at h
      simp only [List.set_cons_succ]
      rw [ih m h]

/-- Writing back the inode the table already holds leaves the state unchanged. -/
theorem setInode_self {s : FS} {n : Nat} {ino : SOInode}
    (h : getInode s n = .ok ino) : setInode s n ino = s := by
  unfold getInode at h
  unfold setInode
  cases hg : s.itable.get? n with
  | none => rw [hg] at h; cases h
  | some w =>
    rw [hg] at h
    cases h
    rw [List_set_get_self s.itable n _ hg]

/-- Reading an in-use inode whose access-time stamp already equals the clock is a
pure read: the state comes back unchanged (the IUIN read rewrites vD1 with the
current time, which is the value it already holds). -/
theorem soReadInode_stable {t : FS} {nDir : Nat} {ino : SOInode}
    (hn : nDir < t.sb.iTotal)
    (hi : getInode t nDir = .ok ino)
    (hiu : soQCheckInodeIU ino = .ok ())
    (hvd : ino.vD1 = t.now) :
    soReadInode nDir IUIN t = .ok (ino, t) := by
  unfold soReadInode
  rw [if_neg (by omega)]
  norm_num [IUIN, FDIN]
  rw [hi]
  simp only [hiu]
  have he : { ino with vD1 := t.now } = ino := by
    rw [← hvd]
  rw [he, setInode_self hi]

/-- Pure view of the single-indirect GET path of soHandleSIndirect: the reference at
file position p read out of the i1 table (NULL_CLUSTER when i1 is absent). -/
def sindRefPure (t : FS) (ino : SOInode) (p : Nat) : Except Int Nat :=
  if ino.i1 = NULL_CLUSTER then .ok NULL_CLUSTER
  else
    match soReadCacheCluster (u32 (t.sb.dZoneStart + ino.i1 * BLOCKS_PER_CLUSTER)) t with
    | .error e => .error e
    | .ok dc =>
      match refView dc.info with
      | .error e => .error e
      | .ok tt => lget tt (p - N_DIRECT)

/-- Pure view of the double-indirect GET path of soHandleDIndirect. -/
def dindRefPure (t : FS) (ino : SOInode) (p : Nat) : Except Int Nat :=
  if ino.i2 = NULL_CLUSTER then .ok NULL_CLUSTER
  else
    match soReadCacheCluster (u32 (t.sb.dZoneStart + ino.i2 * BLOCKS_PER_CLUSTER)) t with
    | .error e => .error e
    | .ok dcS =>
      match refView dcS.info with
      | .error e => .error e
      | .ok tS =>
        match lget tS ((p - N_DIRECT - RPC) / RPC) with
        | .error e => .error e
        | .ok v1 =>
          if v1 = NULL_CLUSTER then .ok NULL_CLUSTER
          else
            match soReadCacheCluster (u32 (t.sb.dZoneStart + v1 * BLOCKS_PER_CLUSTER)) t with
            | .error e => .error e
            | .ok dcD =>
              match refView dcD.info with
              | .error e => .error e
              | .ok tD => lget tD ((p - N_DIRECT - RPC) % RPC)

/-- Pure view of the GET operation of soHandleFileCluster: the logical cluster
reference held at file position p, read through the direct, single-indirect or
double-indirect tables. -/
def getRefPure (t : FS) (ino : SOInode) (p : Nat) : Except Int Nat :=
  if p < N_DIRECT then lget ino.d p
  else if p < N_DIRECT + RPC then sindRefPure t ino p
  else dindRefPure t ino p

/-- The GET path of soHandleDirect is the pure direct-table lookup. -/
theorem soHandleDirect_get (f nInode p : Nat) (ino : SOInode) (t : FS) :
    soHandleDirect (f + 1) nInode ino p GET false t =
      Except.map (fun v => ((some v, ino), t)) (lget ino.d p) := by
  simp only [soHandleDirect]
  norm_num [GET, ALLOC, FREE, FREE_CLEAN, CLEAN]
  cases hl : lget ino.d p <;> simp [Except.map]

/-- The GET path of soHandleSIndirect is the pure i1-table lookup. -/
theorem soHandleSIndirect_get (f nInode p : Nat) (ino : SOInode) (t : FS) :
    soHandleSIndirect (f + 1) nInode ino p GET false t =
      Except.map (fun v => ((some v, ino), t)) (sindRefPure t ino p) := by
  simp only [soHandleSIndirect, sindRefPure]
  by_cases h1 : ino.i1 = NULL_CLUSTER
  · simp [h1, GET, Except.map]
  · rw [if_neg h1, if_neg h1]
    norm_num [GET, ALLOC, FREE, FREE_CLEAN, CLEAN]
    cases hr : soReadCacheCluster (u32 (t.sb.dZoneStart + ino.i1 * BLOCKS_PER_CLUSTER)) t
    · simp [Except.map]
    · rename_i dc
      cases hv : refView dc.info
      · simp [hv, Except.map]
      · rename_i tt
        simp only [hv]
        cases hl : lget tt (p - N_DIRECT) <;> simp [hl, Except.map]

/-- The GET path of soHandleDIndirect is the pure i2-table lookup. -/
theorem soHandleDIndirect_get (f nInode p : Nat) (ino : SOInode) (t : FS) :
    soHandleDIndirect (f + 1) nInode ino p GET false t =
      Except.map (fun v => ((some v, ino), t)) (dindRefPure t ino p) := by
  simp only [soHandleDIndirect, dindRefPure]
  norm_num [GET, ALLOC, FREE, FREE_CLEAN, CLEAN]
  by_cases h2 : ino.i2 = NULL_CLUSTER
  · simp [h2, Except.map]
  · rw [if_neg h2, if_neg h2]
    cases hr : soReadCacheCluster (u32 (t.sb.dZoneStart + ino.i2 * BLOCKS_PER_CLUSTER)) t
    · simp [Except.map]
    · rename_i dcS
      cases hv : refView dcS.info
      · simp [hv, Except.map]
      · rename_i tS
        simp only [hv]
        cases hl : lget tS ((p - N_DIRECT - RPC) / RPC)
        · simp [hl, Except.map]
        · rename_i v1
          simp only [hl]
          by_cases hnv : v1 = NULL_CLUSTER
          · simp [hnv, Except.map]
          · rw [if_neg hnv, if_neg hnv]
            cases hr2 : soReadCacheCluster (u32 (t.sb.dZoneStart + v1 * BLOCKS_PER_CLUSTER)) t
            · simp [Except.map]
            · rename_i dcD
              cases hv2 : refView dcD.info
              · simp [hv2, Except.map]
              · rename_i tD
                simp only [hv2]
                cases hl2 : lget tD ((p - N_DIRECT - RPC) % RPC) <;> simp [hl2, Except.map]

/-- On a clock-stable state (the inode's access time already equals the clock), a
GET through soHandleFileCluster is exactly the pure lookup getRefPure and leaves the
state untouched. -/
theorem soHandleFileCluster_get {t : FS} {nInode : Nat} {ino : SOInode} (f p : Nat)
    (hp : p < MAX_FILE_CLUSTERS) (hn : nInode < t.sb.iTotal)
    (hi : getInode t nInode = .ok ino) (hiu : soQCheckInodeIU ino = .ok ())
    (hvd : ino.vD1 = t.now) :
    soHandleFileCluster (f + 2) nInode p GET false t =
      Except.map (fun v => (some v, t)) (getRefPure t ino p) := by
  show soHandleFileCluster (f + 1 + 1) nInode p GET false t = _
  simp only [soHandleFileCluster]
  rw [if_neg (by omega)]
  norm_num [GET, ALLOC, FREE, FREE_CLEAN, CLEAN, IUIN, FDIN]
  rw [if_neg (by omega)]
  rw [show (0 : Nat) = IUIN from rfl, soReadInode_stable hn hi hiu hvd]
  rw [show IUIN = GET from rfl]
  simp only [getRefPure]
  by_cases hd : p < N_DIRECT
  · rw [if_pos hd, if_pos hd, soHandleDirect_get]
    cases lget ino.d p <;> simp [Except.map]
  · rw [if_neg hd, if_neg hd]
    by_cases hs : p < N_DIRECT + RPC
    · rw [if_pos hs, if_pos hs, soHandleSIndirect_get]
      cases sindRefPure t ino p <;> simp [Except.map]
    · rw [if_neg hs, if_neg hs, soHandleDIndirect_get]
      cases dindRefPure t ino p <;> simp [Except.map]

/-- Pure view of soReadFileCluster: look the position up with getRefPure, then read
the cluster from the device, or produce the all-zero buffer when the position holds
NULL_CLUSTER. -/
def readClustPure (t : FS) (ino : SOInode) (k : Nat) : Except Int SODataClust :=
  match getRefPure t ino k with
  | .error e => .error e
  | .ok clustLogicNumber =>
    if clustLogicNumber ≠ NULL_CLUSTER then
      soReadCacheCluster (u32 (t.sb.dZoneStart + clustLogicNumber * BLOCKS_PER_CLUSTER)) t
    else .ok ⟨0, 0, 0, .bytes (List.replicate BSLPC 0)⟩

/-- On a clock-stable state soReadFileCluster is the pure read readClustPure and
leaves the state untouched. -/
theorem soReadFileCluster_stable {t : FS} {nInode : Nat} {ino : SOInode} (k : Nat)
    (hk : k < MAX_FILE_CLUSTERS) (hn : nInode < t.sb.iTotal)
    (hi : getInode t nInode = .ok ino) (hiu : soQCheckInodeIU ino = .ok ())
    (hvd : ino.vD1 = t.now)
    (htype : ino.mode &&& INODE_TYPE_MASK = INODE_DIR ∨
      ino.mode &&& INODE_TYPE_MASK = INODE_FILE ∨
      ino.mode &&& INODE_TYPE_MASK = INODE_SYMLINK) :
    soReadFileCluster nInode k t =
      Except.map (fun dc => (dc, t)) (readClustPure t ino k) := by
  unfold soReadFileCluster
  rw [if_neg (by omega)]
  rw [show FUEL = 22 + 2 from rfl, soHandleFileCluster_get 22 k hk hn hi hiu hvd]
  simp only [readClustPure]
  cases hg : getRefPure t ino k
  · simp [Except.map]
  · rename_i v
    simp only [Except.map]
    rw [hi]
    simp only [hiu]
    rw [if_neg (by tauto)]
    by_cases hv : v = NULL_CLUSTER
    · simp [hv]
    · rw [if_pos hv, if_pos hv]
      cases soReadCacheCluster (u32 (t.sb.dZoneStart + v * BLOCKS_PER_CLUSTER)) t <;> rfl

/-- Directory contents as a list of per-cluster entry arrays: clusters k,
k + 1, ... read with readClustPure and viewed as directory entries. -/
def dirContentsFrom (t : FS) (ino : SOInode) : Nat → Nat → Except Int (List (List SODirEntry))
  | 0, _ => .ok []
  | r + 1, k =>
    match readClustPure t ino k with
    | .error e => .error e
    | .ok dc =>
      match deView dc.info with
      | .error e => .error e
      | .ok de =>
        match dirContentsFrom t ino r (k + 1) with
        | .error e => .error e
        | .ok rest => .ok (de :: rest)

/-- Pure counterpart of gdeScanClusters over an explicit content list. -/
def scanL (eName : List Nat) : List (List SODirEntry) → Nat → Option Nat →
    Except Int (Option (Nat × Nat) × Option Nat)
  | [], _, flag => .ok (none, flag)
  | de :: rest, idxCluster, flag =>
    match gdeScanEntries eName de (idxCluster * DPC) DPC 0 flag with
    | .error e => .error e
    | .ok (.inl found) => .ok (some found, flag)
    | .ok (.inr flag2) => scanL eName rest (idxCluster + 1) flag2

/-- On a clock-stable state the cluster scan of soGetDirEntryByName is the pure scan
of the directory contents and leaves the state untouched. -/
theorem gdeScanClusters_stable {t : FS} {nInode : Nat} {ino : SOInode}
    {eName : List Nat} (r : Nat) :
    ∀ (k : Nat) (flag : Option Nat) (L : List (List SODirEntry)),
    k + r ≤ MAX_FILE_CLUSTERS →
    nInode < t.sb.iTotal →
    getInode t nInode = .ok ino →
    soQCheckInodeIU ino = .ok () →
    ino.vD1 = t.now →
    (ino.mode &&& INODE_TYPE_MASK = INODE_DIR ∨
      ino.mode &&& INODE_TYPE_MASK = INODE_FILE ∨
      ino.mode &&& INODE_TYPE_MASK = INODE_SYMLINK) →
    dirContentsFrom t ino r k = .ok L →
    gdeScanClusters nInode eName r k flag t =
      Except.map (fun x => (x, t)) (scanL eName L k flag) := by
  induction r with
  | zero =>
    intro k flag L _ _ _ _ _ _ hc
    simp only [dirContentsFrom] at hc
    cases hc
    rfl
  | succ r ih =>
    intro k flag L hb hn hi hiu hvd htype hc
    simp only [dirContentsFrom] at hc
    simp only [gdeScanClusters]
    rw [soReadFileCluster_stable k (by omega) hn hi hiu hvd htype]
    cases hr : readClustPure t ino k
    · simp only [hr] at hc; cases hc
    · rename_i dc
      simp only [hr] at hc
      simp only [Except.map]
      cases hdv : deView dc.info
      · simp only [hdv] at hc; cases hc
      · rename_i de
        simp only [hdv] at hc
        cases hrest : dirContentsFrom t ino r (k + 1)
        · simp only [hrest] at hc; cases hc
        · rename_i rest
          simp only [hrest] at hc
          cases hc
          simp only [scanL]
          cases hs : gdeScanEntries eName de (k * DPC) DPC 0 flag
          · rfl
          · rename_i res
            cases res with
            | inl found => rfl
            | inr flag2 => exact ih (k + 1) flag2 rest (by omega) hn hi hiu hvd htype hrest

/-- On a clock-stable state with the directory content given explicitly,
soGetDirEntryByName is determined by the pure scan scanL. -/
theorem soGetDirEntryByName_stable {t : FS} {nInodeDir : Nat} {ino : SOInode}
    {eName : List Nat} {L : List (List SODirEntry)}
    (hs0 : strlen eName ≠ 0) (hs1 : 47 ∉ cstr eName) (hs2 : strlen eName ≤ MAX_NAME)
    (hn : nInodeDir < t.sb.iTotal)
    (hi : getInode t nInodeDir = .ok ino) (hiu : soQCheckInodeIU ino = .ok ())
    (hvd : ino.vD1 = t.now)
    (hdir : ino.mode &&& INODE_TYPE_MASK = INODE_DIR)
    (hdc : soQCheckDirCont ino t = .ok ())
    (hacc : soAccessGranted nInodeDir X t = .ok ((), t))
    (hb : ino.size / (DPC * sizeof_SODirEntry) ≤ MAX_FILE_CLUSTERS)
    (hcont : dirContentsFrom t ino (ino.size / (DPC * sizeof_SODirEntry)) 0 = .ok L) :
    soGetDirEntryByName nInodeDir eName t =
      match scanL eName L 0 none with
      | .error e => .error e
      | .ok (some (entInode, idx), _) => .ok ((0, some entInode, some idx), t)
      | .ok (none, some freeIdx) => .ok ((-ENOENT, none, some freeIdx), t)
      | .ok (none, none) => .ok ((-ENOENT, none, some (ino.cluCount * DPC)), t) := by
  unfold soGetDirEntryByName
  rw [if_neg (by push_neg; exact ⟨hs0, by omega, hs1⟩)]
  rw [if_neg (by omega)]
  simp only [soReadInode_stable hn hi hiu hvd]
  rw [if_neg (by simp [hdir])]
  simp only [hdc, hacc]
  rw [gdeScanClusters_stable (ino.size / (DPC * sizeof_SODirEntry)) 0 none L
    (by omega) hn hi hiu hvd (Or.inl hdir) hcont]
  cases scanL eName L 0 none with
  | error e => rfl
  | ok res =>
    rcases res with ⟨found, flag⟩
    cases found with
    | none => cases flag <;> rfl
    | some fd => rcases fd with ⟨a, b⟩; rfl

/-- Freeness test actually applied by soGetDirEntryByName's scan: the first and the
last byte of the name are NUL; the nInode field is not examined. -/
def entFreeByName (e : SODirEntry) : Prop :=
  e.name.getD 0 1 = 0 ∧ e.name.getD MAX_NAME 1 = 0

instance (e : SODirEntry) : Decidable (entFreeByName e) := by
  unfold entFreeByName; infer_instance

/-- Index of the first entry of a cluster that passes the name-bytes freeness test. -/
def firstFreeEnt : List SODirEntry → Option Nat
  | [] => none
  | e :: rest =>
    if entFreeByName e then some 0
    else (firstFreeEnt rest).map (· + 1)

/-- Global index (over clusters numbered from k) of the first entry of a directory
content that passes the name-bytes freeness test. -/
def firstFreeIdxL : List (List SODirEntry) → Nat → Option Nat
  | [], _ => none
  | de :: rest, k =>
    match firstFreeEnt de with
    | some j => some (k * DPC + j)
    | none => firstFreeIdxL rest (k + 1)

/-- When no entry of the cluster matches the searched name, the entry scan reports
to the caller the free-slot flag: kept if already set, else the first entry whose
first and last name bytes are NUL. -/
theorem gdeScanEntries_nomatch (eName : List Nat) (de : List SODirEntry) (base : Nat) :
    ∀ r j (flag : Option Nat),
    j + r = de.length →
    (∀ e ∈ de, MAX_NAME < e.name.length ∧ cstr e.name ≠ cstr eName) →
    gdeScanEntries eName de base r j flag =
      .ok (.inr (match flag with
        | some i => some i
        | none => (firstFreeEnt (de.drop j)).map (fun i => base + j + i))) := by
  intro r
  induction r with
  | zero =>
    intro j flag hj _
    have hd : de.drop j = [] := List.drop_eq_nil_of_le (by omega)
    simp [gdeScanEntries, hd, firstFreeEnt]
    cases flag <;> rfl
  | succ r ih =>
    intro j flag hj hwf
    have hjlt : j < de.length := by omega
    have hmem : de.get ⟨j, hjlt⟩ ∈ de := List.get_mem de j hjlt
    obtain ⟨hlen, hnm⟩ := hwf _ hmem
    simp only [gdeScanEntries]
    have hdg : dget de j = .ok (de.get ⟨j, hjlt⟩) := by
      unfold dget
      rw [List.get?_eq_get hjlt]
    rw [hdg]
    simp only [if_neg hnm]
    have hl0 : lget (de.get ⟨j, hjlt⟩).name 0 =
        .ok ((de.get ⟨j, hjlt⟩).name.getD 0 1) := by
      unfold lget
      rw [List.get?_eq_get (by omega), List.getD_eq_getElem _ _ (by omega)]
      rfl
    have hlM : lget (de.get ⟨j, hjlt⟩).name MAX_NAME =
        .ok ((de.get ⟨j, hjlt⟩).name.getD MAX_NAME 1) := by
      unfold lget
      rw [List.get?_eq_get (by omega), List.getD_eq_getElem _ _ (by omega)]
      rfl
    simp only [hl0, hlM]
    have hdrop : de.drop j = de.get ⟨j, hjlt⟩ :: de.drop (j + 1) :=
      List.drop_eq_getElem_cons hjlt
    rw [ih (j + 1) _ (by omega) hwf]
    cases flag with
    | some i => simp
    | none =>
      by_cases hfree : entFreeByName (de.get ⟨j, hjlt⟩)
      · obtain ⟨h1, h2⟩ := hfree
        have hc : (de.get ⟨j, hjlt⟩).name.getD 0 1 = 0 ∧
            (de.get ⟨j, hjlt⟩).name.getD MAX_NAME 1 = 0 ∧ (none : Option Nat) = none :=
          ⟨h1, h2, rfl⟩
        rw [if_pos hc, hdrop]
        simp only [firstFreeEnt]
        rw [if_pos (show entFreeByName (de.get ⟨j, hjlt⟩) from ⟨h1, h2⟩)]
        simp
      · have hc : ¬((de.get ⟨j, hjlt⟩).name.getD 0 1 = 0 ∧
            (de.get ⟨j, hjlt⟩).name.getD MAX_NAME 1 = 0 ∧ (none : Option Nat) = none) := by
          intro hx
          exact hfree ⟨hx.1, hx.2.1⟩
        rw [if_neg hc, hdrop]
        simp only [firstFreeEnt, if_neg hfree]
        cases firstFreeEnt (de.drop (j + 1)) with
        | none => rfl
        | some i =>
          simp only [Option.map_some, Option.map_map, Except.ok.injEq, Sum.inr.injEq,
            Option.some.injEq]
          simp [Function.comp]
          omega

/-- When no entry of the whole directory matches the searched name, the pure cluster
scan reports no match and the index of the first entry whose first and last name
bytes are NUL. -/
theorem scanL_nomatch (eName : List Nat) (L : List (List SODirEntry)) :
    ∀ (k : Nat) (flag : Option Nat),
    (∀ de ∈ L, de.length = DPC ∧
      ∀ e ∈ de, MAX_NAME < e.name.length ∧ cstr e.name ≠ cstr eName) →
    scanL eName L k flag =
      .ok (none, match flag with
        | some i => some i
        | none => firstFreeIdxL L k) := by
  induction L with
  | nil =>
    intro k flag _
    simp only [scanL, firstFreeIdxL]
    cases flag <;> rfl
  | cons de rest ih =>
    intro k flag hwf
    obtain ⟨hlen, hwfde⟩ := hwf de (by simp)
    simp only [scanL]
    simp only [gdeScanEntries_nomatch eName de (k * DPC) DPC 0 flag (by omega) hwfde]
    rw [ih (k + 1) _ (fun d hd => hwf d (by simp [hd]))]
    simp only [firstFreeIdxL, List.drop_zero]
    cases flag with
    | some i => rfl
    | none =>
      cases hff : firstFreeEnt de with
      | some j => simp
      | none => rfl

/-- Root-directory inode of the directory-scan counterexample state: one content
cluster (logical cluster 0), access time equal to the clock. -/
def inoRoot9 : SOInode :=
  { mode := INODE_DIR + 511, refCount := 2, owner := 0, group := 0
    size := DPC * sizeof_SODirEntry, cluCount := 1, vD1 := 11, vD2 := 0
    d := 0 :: List.replicate (N_DIRECT - 1) NULL_CLUSTER, i1 := NULL_CLUSTER, i2 := NULL_CLUSTER }

/-- A directory entry whose name bytes are all NUL but whose inode field still holds
inode 7: free by the name-bytes test, not free-and-clean by the spec's test. -/
def rogueEnt : SODirEntry := ⟨nameBlank, 7⟩

/-- Entries of the counterexample directory: dot, dot-dot and the rogue slot. -/
def dirEnts9 : List SODirEntry :=
  [⟨strncpyN [46] (MAX_NAME + 1), 0⟩, ⟨strncpyN [46, 46] (MAX_NAME + 1), 0⟩, rogueEnt]

/-- Content cluster of the counterexample directory. -/
def dirClust9 : SODataClust :=
  ⟨NULL_CLUSTER, NULL_CLUSTER, 0, .dirents dirEnts9⟩

/-- Counterexample state for the directory scan: a root directory holding dot,
dot-dot and the rogue slot. -/
def fsDir9 : FS :=
  { sb := sbSmall
    itable := [inoRoot9]
    dzone := [dirClust9]
    now := 11, uid := 0, gid := 0, euid := 0, egid := 0 }

/-- Claim C9, counterexample: the scan's free-slot test ignores the nInode field.
In fsDir9 the rogue entry at index 2 has an all-NUL name but nInode = 7, so by the
claim's free-and-clean definition (name bytes NUL and nInode = NULL_INODE) the
directory holds no free-and-clean entry and the stored index should be
cluCount * DPC = 3; the code nevertheless returns index 2. -/
theorem C9_counterexample_free_slot_nInode :
    rogueEnt.nInode ≠ NULL_INODE ∧
    (∀ de ∈ [dirEnts9], ∀ e ∈ de,
      ¬(e.name.getD 0 1 = 0 ∧ e.name.getD MAX_NAME 1 = 0 ∧ e.nInode = NULL_INODE)) ∧
    inoRoot9.cluCount * DPC = 3 ∧
    soGetDirEntryByName 0 [120] fsDir9 = .ok ((-ENOENT, none, some 2), fsDir9) := by
  refine ⟨by decide, by decide, by decide, by decide⟩

/-- Claim C9 (amended): for a directory inode on a clock-stable state and a valid
base name matching no entry, soGetDirEntryByName returns ENOENT and stores as index
the first entry of the ascending scan whose FIRST and LAST name bytes are both NUL -
the nInode field is not part of the test, unlike the claim's free-and-clean
definition - or cluCount * DPC when no such entry exists. -/
theorem C9_soGetDirEntryByName_freeByNameOnly (t : FS) (nInodeDir : Nat)
    (ino : SOInode) (eName : List Nat) (L : List (List SODirEntry))
    (hs0 : strlen eName ≠ 0) (hs1 : 47 ∉ cstr eName) (hs2 : strlen eName ≤ MAX_NAME)
    (hn : nInodeDir < t.sb.iTotal)
    (hi : getInode t nInodeDir = .ok ino) (hiu : soQCheckInodeIU ino = .ok ())
    (hvd : ino.vD1 = t.now)
    (hdir : ino.mode &&& INODE_TYPE_MASK = INODE_DIR)
    (hdc : soQCheckDirCont ino t = .ok ())
    (hacc : soAccessGranted nInodeDir X t = .ok ((), t))
    (hb : ino.size / (DPC * sizeof_SODirEntry) ≤ MAX_FILE_CLUSTERS)
    (hcont : dirContentsFrom t ino (ino.size / (DPC * sizeof_SODirEntry)) 0 = .ok L)
    (hwf : ∀ de ∈ L, de.length = DPC ∧
      ∀ e ∈ de, MAX_NAME < e.name.length ∧ cstr e.name ≠ cstr eName) :
    soGetDirEntryByName nInodeDir eName t =
      .ok ((-ENOENT, none,
        some (match firstFreeIdxL L 0 with
          | some i => i
          | none => ino.cluCount * DPC)), t) := by
  rw [soGetDirEntryByName_stable hs0 hs1 hs2 hn hi hiu hvd hdir hdc hacc hb hcont]
  rw [scanL_nomatch eName L 0 none hwf]
  cases firstFreeIdxL L 0 <;> rfl

/-- Concrete instantiation of the amended claim C9 theorem on fsDir9. -/
theorem C9_soGetDirEntryByName_freeByNameOnly_witness :
    soGetDirEntryByName 0 [120] fsDir9 = .ok ((-ENOENT, none, some 2), fsDir9) := by
  have h := C9_soGetDirEntryByName_freeByNameOnly fsDir9 0 inoRoot9 [120] [dirEnts9]
    (by decide) (by decide) (by decide) (by decide) (by decide) (by decide)
    (by decide) (by decide) (by decide) (by decide) (by decide) (by decide) (by decide)
  rw [h]
  rfl

/-- An arbitrary junk inode standing for the never-initialized contents of a
freshly opened device's inode table. -/
def junkInode7 : SOInode :=
  { mode := 123, refCount := 9, owner := 7, group := 7, size := 77, cluCount := 3
    vD1 := 999, vD2 := 888
    d := List.replicate N_DIRECT 5, i1 := 5, i2 := 5 }

/-- State right after fillInSuperBlock with the degenerate inode count iTotal = 2:
the two table slots still hold junk. -/
def fsPre7 : FS :=
  { sb := fillInSuperBlock 100 2 6 [83]
    itable := [junkInode7, junkInode7]
    dzone := []
    now := 11, uid := 0, gid := 0, euid := 0, egid := 0 }

/-- Claim C7, counterexample for the degenerate case iTotal = 2: the superblock
declares the free-inode list as head = tail = 1, but iTableSize = 2 / IPB = 0, so
the initialization loop of fillInINT covers no block at all and the table keeps its
junk: inode 1 is neither free nor linked (its next and prev fields are not
NULL_INODE), contradicting the claim's "including the degenerate case iTotal = 2". -/
theorem C7_counterexample_iTotal_two :
    (fillInSuperBlock 100 2 6 [83]).iTotal = 2 ∧
    (fillInSuperBlock 100 2 6 [83]).iHead = 1 ∧
    (fillInSuperBlock 100 2 6 [83]).iTail = 1 ∧
    (fillInSuperBlock 100 2 6 [83]).iTableSize = 0 ∧
    fillInINT fsPre7 = .ok ((), fsPre7) ∧
    fsPre7.itable.get? 1 = some junkInode7 ∧
    junkInode7.mode ≠ INODE_FREE ∧
    junkInode7.vD2 ≠ NULL_INODE ∧
    junkInode7.vD1 ≠ NULL_INODE := by
  refine ⟨by decide, by decide, by decide, by decide, ?_, by decide, by decide, by decide,
    by decide⟩
  decide

/-- Claim C7 (amended): after fillInSuperBlock and fillInINT with an inode count
iTotal = k * IPB that is a positive multiple of IPB - mkfsParams always produces
such a multiple, first conjunct - every inode other than 0 is free and the
free-inode list is 1 .. iTotal-1 threaded in ascending order through the vD1.next
and vD2.prev overlays, with iHead = 1, iTail = iTotal - 1, head prev = NULL_INODE
and tail next = NULL_INODE.  The claim's degenerate case iTotal = 2 is excluded:
there iTableSize = 0 and the table is not initialized at all. -/
theorem C7_fillInINT_ascending_free_list (ntotal nclust : Nat) (name : List Nat)
    (k : Nat) (s : FS)
    (hk : 1 ≤ k) (hbound : k * IPB < NULL_INODE)
    (hlen : s.itable.length = k * IPB)
    (hsb : s.sb = fillInSuperBlock ntotal (k * IPB) nclust name) :
    (∀ nt req, (mkfsParams nt req).2.1 % IPB = 0) ∧
    s.sb.iHead = 1 ∧ s.sb.iTail = k * IPB - 1 ∧
    ∃ s2, fillInINT s = .ok ((), s2) ∧
      ∀ n, 1 ≤ n → n < k * IPB →
        ∃ ino, s2.itable.get? n = some ino ∧
          ino.mode = INODE_FREE ∧
          ino.vD1 = (if n = k * IPB - 1 then NULL_INODE else n + 1) ∧
          ino.vD2 = (if n = 1 then NULL_INODE else n - 1) := by
  have hIPB : IPB = 8 := rfl
  have hNI : NULL_INODE = 4294967295 := rfl
  rw [hIPB] at hbound
  rw [hNI] at hbound
  have hit : s.sb.iTotal = k * IPB := by rw [hsb]; rfl
  have hlast : u32sub s.sb.iTotal 1 = k * IPB - 1 := by
    rw [hit, hIPB]
    unfold u32sub
    omega
  have hchar : ∀ n, 1 ≤ n → n < k * IPB →
      fillInINTInode s.sb s.uid s.gid s.now n =
      { mode := INODE_FREE, refCount := 0, owner := 0, group := 0, size := 0, cluCount := 0,
        vD1 := if n = k * IPB - 1 then NULL_INODE else n + 1,
        vD2 := if n = 1 then NULL_INODE else n - 1,
        d := List.replicate N_DIRECT NULL_CLUSTER, i1 := NULL_CLUSTER, i2 := NULL_CLUSTER } := by
    intro n h1 h2
    rw [hIPB] at h2
    unfold fillInINTInode
    simp only [if_neg (show ¬n = 0 by omega), hlast]
    rw [hIPB]
    by_cases hn1 : n = 1 <;> by_cases hnl : n = k * 8 - 1
    · exfalso; omega
    · subst hn1
      simp [hnl, u32, u32sub, SOInode.mk.injEq, hNI]
    · subst hnl
      simp [hn1, u32, u32sub, SOInode.mk.injEq, hNI]
      omega
    · simp [hn1, hnl, u32, u32sub, SOInode.mk.injEq, hNI]
      omega
  have hsize : s.sb.iTableSize = k := by
    rw [hsb]
    show k * IPB / IPB = k
    rw [hIPB]
    omega
  refine ⟨?_, ?_, ?_, ?_⟩
  · intro nt req
    simp [mkfsParams, Nat.mul_mod_left]
  · rw [hsb]; rfl
  · rw [hsb]
    show u32sub (k * IPB) 1 = k * IPB - 1
    unfold u32sub
    rw [hIPB]
    omega
  · unfold fillInINT
    rw [hsize, hlen, if_pos (le_refl _)]
    refine ⟨_, rfl, ?_⟩
    intro n h1 h2
    have hget : ((List.range (k * IPB)).map (fun n =>
        if n < k * IPB then fillInINTInode s.sb s.uid s.gid s.now n
        else s.itable.getD n default)).get? n =
        some (fillInINTInode s.sb s.uid s.gid s.now n) := by
      rw [List.get?_eq_getElem?, List.getElem?_map, List.getElem?_range h2]
      simp [h2]
    refine ⟨_, hget, ?_⟩
    rw [hchar n h1 h2]
    refine ⟨rfl, rfl, rfl⟩

/-- State right after fillInSuperBlock with the smallest regular inode count
iTotal = 1 * IPB = 8: the eight table slots still hold junk. -/
def fsC7 : FS :=
  { sb := fillInSuperBlock 100 (1 * IPB) 6 [83]
    itable := List.replicate 8 junkInode7
    dzone := []
    now := 11, uid := 0, gid := 0, euid := 0, egid := 0 }

/-- Concrete instantiation of the amended claim C7 theorem with k = 1 on fsC7. -/
theorem C7_fillInINT_ascending_free_list_witness :
    (∀ nt req, (mkfsParams nt req).2.1 % IPB = 0) ∧
    fsC7.sb.iHead = 1 ∧ fsC7.sb.iTail = 1 * IPB - 1 ∧
    ∃ s2, fillInINT fsC7 = .ok ((), s2) ∧
      ∀ n, 1 ≤ n → n < 1 * IPB →
        ∃ ino, s2.itable.get? n = some ino ∧
          ino.mode = INODE_FREE ∧
          ino.vD1 = (if n = 1 * IPB - 1 then NULL_INODE else n + 1) ∧
          ino.vD2 = (if n = 1 then NULL_INODE else n - 1) :=
  C7_fillInINT_ascending_free_list 100 6 [83] 1 fsC7 (by decide) (by decide) (by decide) rfl
